import Mathlib

/-!
# gm965temp

A shallow embedding of the hwmon driver in `gm965temp.c` (Intel GM965 and
3/4-series IGP die temperature sensor) together with theorems about its
register read sequence, its decode formulas and its device discovery.

Conventions of the embedding:

* `unsigned` C objects are natural numbers reduced modulo their width,
  `int` and `char` objects are integers;
* `char` is the signed 8-bit type: the driver only builds for x86 kernels
  that still have `__devinit` and `ioremap_nocache`, and on those the compiler
  treats plain `char` as signed;
* the memory mapped registers are an oracle `hw off n`: the value the
  hardware returns for the `n`-th read (counted from 0, within one call)
  of the register at offset `off`;
* every externally visible action of a call is appended to a trace of events;
* `printk` output is not part of the model.
-/

namespace Gm965temp

/-! ## C integer conversions -/

/-- Conversion of an integer value to `char` (signed, 8 bits, wrapping). -/
def toChar (x : Int) : Int := (x + 128) % 256 - 128

/-- Conversion of an integer value to `int` (signed, 32 bits, wrapping). -/
def toInt (x : Int) : Int := (x + 2147483648) % 4294967296 - 2147483648

/-- Conversion of an integer value to `unsigned int` (32 bits, wrapping). -/
def toUInt (x : Int) : Nat := (x % 4294967296).toNat

/-! ## Constants of the driver -/

def PCI_DEVICE_ID_INTEL_82965GM : Nat := 0x2a00
def PCI_DEVICE_ID_INTEL_82965GME : Nat := 0x2a10
def PCI_DEVICE_ID_INTEL_GM45 : Nat := 0x2a40
def PCI_DEVICE_ID_INTEL_Q35 : Nat := 0x29b0
def PCI_DEVICE_ID_INTEL_G33 : Nat := 0x29c0
def PCI_DEVICE_ID_INTEL_Q33 : Nat := 0x29d0
def PCI_DEVICE_ID_INTEL_Q45 : Nat := 0x2e10
def PCI_DEVICE_ID_INTEL_G45 : Nat := 0x2e20
def PCI_DEVICE_ID_INTEL_G41 : Nat := 0x2e30
def PCI_DEVICE_ID_INTEL_B43_BASE : Nat := 0x2e40
def PCI_DEVICE_ID_INTEL_B43_SOFT_SKU : Nat := 0x2e90

def MCHBAR_I965 : Nat := 0x48
def MCHBAR_MASK : Nat := 0xfffffc000

def TSC1 : Nat := 0x1001
def TSS1 : Nat := 0x1004
def TR1 : Nat := 0x1006
def TOF1 : Nat := 0x1007
def RTR1 : Nat := 0x1008

def G_TSC1 : Nat := 0xCD8
def G_TSS : Nat := 0xCDA
def TSTTP : Nat := 0xCDC

def G_TSE : Nat := 0x80
def TSE : Nat := 0x8000
def TMOV : Nat := 0x01 <<< 10
def G_TMOV : Nat := 0x01 <<< 4

def RELT_MASK : Nat := 0xFF000000
def HTPS_MASK : Nat := 0xFF00
def CTPS_MASK : Nat := 0xFF

def MAX_RETRIES : Nat := 36

def ENODEV : Int := 19
def ENOMEM : Int := 12
def EBUSY : Int := 16

def SHOW_TEMP : Nat := 0
def SHOW_TJMAX : Nat := 1
def SHOW_TTARGET : Nat := 2
def SHOW_LABEL : Nat := 3

/-! ## Data model -/

/-- The fields of `struct gm965temp_data` that carry values (the mutex, the
hwmon device and the mapping pointer are represented by events). -/
structure gm965temp_data where
  igp_base : Nat
  igp_len : Nat
  temp : Nat
  chipset_id : Nat
deriving DecidableEq, Repr

/-- The macro `IS_GM`: the chipset is one of the three mobile ones. -/
def IS_GM (data : gm965temp_data) : Bool :=
  data.chipset_id == PCI_DEVICE_ID_INTEL_82965GM
    || data.chipset_id == PCI_DEVICE_ID_INTEL_82965GME
    || data.chipset_id == PCI_DEVICE_ID_INTEL_GM45

/-- Externally visible actions of `gm965temp_update_device`, in program order. -/
inductive Event where
  | store_temp (v : Nat)
  | mutex_lock
  | mutex_unlock
  | ioread8 (off v : Nat)
  | ioread16 (off v : Nat)
  | ioread32 (off v : Nat)
  | iowrite16 (off v : Nat)
  | mdelay (ms : Nat)
  | udelay (us : Nat)
deriving DecidableEq, Repr

/-- The register window: `hw off n` answers the `n`-th read at offset `off`. -/
abbrev Mmio := Nat → Nat → Nat

/-- Value returned by `igp_read_byte` (a `u8`). -/
def igp_read_byte (hw : Mmio) (off n : Nat) : Nat := hw off n % 256

/-- Value returned by `igp_read_short` (a `u16`). -/
def igp_read_short (hw : Mmio) (off n : Nat) : Nat := hw off n % 65536

/-- Value returned by `igp_read_int` (a `u32`). -/
def igp_read_int (hw : Mmio) (off n : Nat) : Nat := hw off n % 4294967296

/-- The recurring `if (IS_GM) igp_read_short(..) else igp_read_byte(..)`,
assigned to an `unsigned short`. -/
def read_reg (gm : Bool) (hw : Mmio) (off n : Nat) : Nat :=
  if gm then igp_read_short hw off n else igp_read_byte hw off n

/-- The event recorded for `read_reg`. -/
def read_reg_event (gm : Bool) (hw : Mmio) (off n : Nat) : Event :=
  if gm then Event.ioread16 off (igp_read_short hw off n)
  else Event.ioread8 off (igp_read_byte hw off n)

/-- The loop `while (!(tss1_val & tmov) && (0 < i--)) { mdelay(1); udelay(300);
tss1_val = read(tss1); }`. The first argument is the counter `i`, `n` is the
number of reads of the status register made so far. -/
def poll (gm : Bool) (hw : Mmio) (tss1 tmov : Nat) :
    Nat → Nat → Nat → List Event → Nat × List Event
  | 0, _, tss1_val, tr => (tss1_val, tr)
  | i + 1, n, tss1_val, tr =>
    if tss1_val &&& tmov = 0 then
      poll gm hw tss1 tmov i (n + 1) (read_reg gm hw tss1 n)
        (tr ++ [Event.mdelay 1, Event.udelay 300, read_reg_event gm hw tss1 n])
    else (tss1_val, tr)

/-- The quadratic of the mobile branch, `16*r*r - 11071*r + 1610500`, in `int`. -/
def mobile_poly (r : Int) : Int := 16 * r * r - 11071 * r + 1610500

/-- The expression of the desktop branch,
`16*temp_val*relt_val - 11071*temp_val + 1610500`, in `int`. -/
def desktop_poly (temp_val relt_val : Int) : Int :=
  16 * temp_val * relt_val - 11071 * temp_val + 1610500

/-- The mobile read and decode (the `USE_RTR` variant, which is the one
compiled): returns the new `data->temp` and the events. -/
def read_mobile (hw : Mmio) (temp : Nat) : Nat × List Event :=
  let rtr1_val : Int := toChar (igp_read_byte hw RTR1 0)
  let tof1_val : Nat := igp_read_byte hw TOF1 0
  let ev := [Event.ioread8 RTR1 (igp_read_byte hw RTR1 0), Event.ioread8 TOF1 tof1_val]
  let rtr1_val : Int := toChar (rtr1_val + tof1_val)
  if rtr1_val ≠ 0xFF ∧ rtr1_val ≠ 0x0 then
    let t := toUInt ((mobile_poly rtr1_val).tdiv 10)
    (t, ev ++ [Event.store_temp t])
  else (temp, ev)

/-- The desktop read and decode: returns the new `data->temp` and the events. -/
def read_desktop (hw : Mmio) : Nat × List Event :=
  let tsttp_val : Nat := igp_read_int hw TSTTP 0
  let htps_val : Nat := (tsttp_val &&& HTPS_MASK) >>> 8
  let relt_val : Int := toChar (((tsttp_val &&& RELT_MASK) >>> 24 : Nat) : Int)
  let temp_val : Int := toInt (toUInt ((htps_val : Int) + relt_val))
  let t := toUInt ((desktop_poly temp_val relt_val).tdiv 10)
  (t, [Event.ioread32 TSTTP tsttp_val, Event.store_temp t])

/-- The function `gm965temp_update_device`: the updated data and the trace. -/
def gm965temp_update_device (hw : Mmio) (data : gm965temp_data) :
    gm965temp_data × List Event :=
  let gm := IS_GM data
  let i := MAX_RETRIES
  let data := { data with temp := 0x0 }
  let tr := [Event.store_temp 0x0]
  let tsc1 := if gm then TSC1 else G_TSC1
  let tss1 := if gm then TSS1 else G_TSS
  let tse := if gm then TSE else G_TSE
  let tmov := if gm then TMOV else G_TMOV
  let tr := tr ++ [Event.mutex_lock]
  let tsc1_val := read_reg gm hw tsc1 0
  let tr := tr ++ [read_reg_event gm hw tsc1 0]
  if tsc1_val &&& tse = 0 then
    let tr := tr ++ [Event.iowrite16 tsc1 ((tsc1_val ||| tse) % 65536)]
    let tr := tr ++ [read_reg_event gm hw tsc1 1]
    (data, tr ++ [Event.mutex_unlock])
  else
    let tss1_val := read_reg gm hw tss1 0
    let tr := tr ++ [read_reg_event gm hw tss1 0]
    let polled := poll gm hw tss1 tmov i 1 tss1_val tr
    let tss1_val := polled.1
    let tr := polled.2
    if tss1_val &&& tmov ≠ 0 then
      if gm then
        let r := read_mobile hw data.temp
        ({ data with temp := r.1 }, tr ++ r.2 ++ [Event.mutex_unlock])
      else
        let r := read_desktop hw
        ({ data with temp := r.1 }, tr ++ r.2 ++ [Event.mutex_unlock])
    else (data, tr ++ [Event.mutex_unlock])

/-- The function `show_temp`: the data after the call, the trace, and the
integer printed by `sprintf(buf, "%d\n", ..)` for the attribute `index`. -/
def show_temp (hw : Mmio) (data : gm965temp_data) (index : Nat) :
    gm965temp_data × List Event × Int :=
  if index = SHOW_TEMP then
    let r := gm965temp_update_device hw data
    (r.1, r.2, toInt r.1.temp)
  else
    let TjMax : Nat := 110
    (data, [], toInt (TjMax * 1000 % 4294967296 : Nat))

/-! ## Device discovery -/

/-- A present PCI device, as seen by `pci_read_config_dword`: the dword at
`MCHBAR_I965` and the one at `MCHBAR_I965 + 4`; `none` means that the read
returns a non-zero (failure) code. -/
structure pci_dev where
  mchbar_lo : Option Nat
  mchbar_hi : Option Nat
deriving DecidableEq, Repr

/-- The bus: `bus devid` is the result of
`pci_get_device(PCI_VENDOR_ID_INTEL, devid, NULL)`, `none` for a null pointer. -/
abbrev PciBus := Nat → Option pci_dev

/-- Configuration space actions of `gm965_find_registers`, in program order. -/
inductive PciEvent where
  | pci_get_device (devid : Nat) (found : Bool)
  | pci_read_config_dword (devid off : Nat) (ok : Bool)
  | pci_write_config_dword (devid off v : Nat)
  | pci_dev_put (devid : Nat)
deriving DecidableEq, Repr

/-- The function `gm965_find_registers`: return code, data, and events. -/
def gm965_find_registers (bus : PciBus) (data : gm965temp_data) (devid : Nat) :
    Int × gm965temp_data × List PciEvent :=
  let res : Int := -ENODEV
  match bus devid with
  | none => (-ENODEV, data, [PciEvent.pci_get_device devid false])
  | some pcidev =>
    let tr := [PciEvent.pci_get_device devid true]
    match pcidev.mchbar_lo with
    | none =>
      (res, data, tr ++ [PciEvent.pci_read_config_dword devid MCHBAR_I965 false,
        PciEvent.pci_dev_put devid])
    | some lo =>
      let val32 : Nat := lo % 4294967296
      let tr := tr ++ [PciEvent.pci_read_config_dword devid MCHBAR_I965 true]
      let tr := if val32 &&& 1 = 0 then
          tr ++ [PciEvent.pci_write_config_dword devid MCHBAR_I965 (val32 ||| 1)]
        else tr
      let val64 : Nat := val32
      match pcidev.mchbar_hi with
      | none =>
        (res, data, tr ++ [PciEvent.pci_read_config_dword devid (MCHBAR_I965 + 4) false,
          PciEvent.pci_dev_put devid])
      | some hi =>
        let val32 : Nat := hi % 4294967296
        let tr := tr ++ [PciEvent.pci_read_config_dword devid (MCHBAR_I965 + 4) true]
        let val64 : Nat := val64 ||| ((val32 <<< 32) % 18446744073709551616)
        let data := { data with igp_base := val64 &&& MCHBAR_MASK }
        let data := { data with igp_len := 16 * 1024 }
        let data := { data with chipset_id := devid }
        (0, data, tr ++ [PciEvent.pci_dev_put devid])

/-- The array `chipset_ids`, with its terminating zero. -/
def chipset_ids : List Nat :=
  [PCI_DEVICE_ID_INTEL_82965GM, PCI_DEVICE_ID_INTEL_82965GME, PCI_DEVICE_ID_INTEL_GM45,
   PCI_DEVICE_ID_INTEL_Q35, PCI_DEVICE_ID_INTEL_G33, PCI_DEVICE_ID_INTEL_Q33,
   PCI_DEVICE_ID_INTEL_Q45, PCI_DEVICE_ID_INTEL_G45, PCI_DEVICE_ID_INTEL_G41,
   PCI_DEVICE_ID_INTEL_B43_BASE, PCI_DEVICE_ID_INTEL_B43_SOFT_SKU, 0]

/-- The loop `do { res = gm965_find_registers(data, chipset_ids[i]); i++; }
while (res && chipset_ids[i]);` run on the part of the array that starts at
index `i`. The array ends with a zero, so the loop never reads past it; the
case of an exhausted array keeps the initial `res = -ENODEV`. -/
def probe_scan (bus : PciBus) : List Nat → gm965temp_data →
    Int × gm965temp_data × List PciEvent
  | [], data => (-ENODEV, data, [])
  | devid :: rest, data =>
    let r := gm965_find_registers bus data devid
    if r.1 ≠ 0 ∧ rest.headD 0 ≠ 0 then
      let r2 := probe_scan bus rest r.2.1
      (r2.1, r2.2.1, r.2.2 ++ r2.2.2)
    else r

/-- The kernel services `gm965temp_probe` depends on, apart from the bus:
whether each allocation or registration succeeds, and with which code the
registrations of `gm965temp_hwmon_init` fail (0 for success). -/
structure Platform where
  bus : PciBus
  kzalloc_ok : Bool
  request_mem_region_ok : Bool
  ioremap_nocache_ok : Bool
  device_create_file : Int
  sysfs_create_group : Int
  hwmon_device_register : Int

/-- The function `gm965temp_hwmon_init`: its return code. -/
def gm965temp_hwmon_init (p : Platform) : Int :=
  if p.device_create_file ≠ 0 then p.device_create_file
  else if p.sysfs_create_group ≠ 0 then p.sysfs_create_group
  else if p.hwmon_device_register ≠ 0 then p.hwmon_device_register
  else 0

/-- The function `gm965temp_probe`: its return code, the driver data that
stays installed with `platform_set_drvdata` (`none` when the data was
freed), and the configuration space events. -/
def gm965temp_probe (p : Platform) : Int × Option gm965temp_data × List PciEvent :=
  if ¬ p.kzalloc_ok then (-ENOMEM, none, [])
  else
    let data : gm965temp_data := ⟨0, 0, 0, 0⟩
    let r := probe_scan p.bus chipset_ids data
    if r.1 ≠ 0 then (r.1, none, r.2.2)
    else if ¬ p.request_mem_region_ok then (-EBUSY, none, r.2.2)
    else if ¬ p.ioremap_nocache_ok then (-EBUSY, none, r.2.2)
    else
      let res := gm965temp_hwmon_init p
      if res ≠ 0 then (res, none, r.2.2)
      else (res, some r.2.1, r.2.2)

/-! ## Vocabulary of the statements -/

/-- The enable bit (`TSE`, or `G_TSE` on the desktop chipsets) is set in the
value that the first read of the control register returns. -/
abbrev enable_bit_set (hw : Mmio) (data : gm965temp_data) : Prop :=
  read_reg (IS_GM data) hw (if IS_GM data then TSC1 else G_TSC1) 0
    &&& (if IS_GM data then TSE else G_TSE) ≠ 0

/-- The ready bit (`TMOV`, or `G_TMOV` on the desktop chipsets) is set in the
value that read number `n` (from 0) of the status register returns. -/
abbrev ready_at (hw : Mmio) (data : gm965temp_data) (n : Nat) : Prop :=
  read_reg (IS_GM data) hw (if IS_GM data then TSS1 else G_TSS) n
    &&& (if IS_GM data then TMOV else G_TMOV) ≠ 0

/-- The ready bit appears for the first time on read number `k` (from 0). -/
abbrev first_ready_at (hw : Mmio) (data : gm965temp_data) (k : Nat) : Prop :=
  (∀ j, j < k → ¬ ready_at hw data j) ∧ ready_at hw data k

/-- The event is a read (of any width) of the register at offset `off`. -/
def is_read_of (off : Nat) : Event → Bool
  | Event.ioread8 o _ => o == off
  | Event.ioread16 o _ => o == off
  | Event.ioread32 o _ => o == off
  | _ => false

/-- Number of reads of the status register in a trace. -/
def status_reads (data : gm965temp_data) (tr : List Event) : Nat :=
  tr.countP (is_read_of (if IS_GM data then TSS1 else G_TSS))

/-- Number of reads of a raw temperature register in a trace. -/
def raw_reads (tr : List Event) : Nat :=
  tr.countP (fun e => is_read_of RTR1 e || is_read_of TOF1 e || is_read_of TR1 e
    || is_read_of TSTTP e)

/-- The events of one retry of the polling loop, for status read number `n`. -/
def retry_events (gm : Bool) (hw : Mmio) (tss1 n : Nat) : List Event :=
  [Event.mdelay 1, Event.udelay 300, read_reg_event gm hw tss1 n]

/-- The events of a call that finds the sensor enabled, from its entry to the
end of the polling loop, when the loop makes `m` retries. -/
def polled_events (hw : Mmio) (data : gm965temp_data) (m : Nat) : List Event :=
  [Event.store_temp 0, Event.mutex_lock,
    read_reg_event (IS_GM data) hw (if IS_GM data then TSC1 else G_TSC1) 0,
    read_reg_event (IS_GM data) hw (if IS_GM data then TSS1 else G_TSS) 0]
  ++ (List.range' 1 m).flatMap
      (retry_events (IS_GM data) hw (if IS_GM data then TSS1 else G_TSS))

/-- The event is an operation on the mutex `update_lock`. -/
def is_mutex_event : Event → Bool
  | Event.mutex_lock => true
  | Event.mutex_unlock => true
  | _ => false

/-- Bits `hi:lo` of `x`, as an unsigned number. -/
def bit_field (x hi lo : Nat) : Nat := x / 2 ^ lo % 2 ^ (hi + 1 - lo)

/-- The device identifiers of `chipset_ids`, without the terminating zero. -/
def supported_ids : List Nat :=
  [0x2a00, 0x2a10, 0x2a40, 0x29b0, 0x29c0, 0x29d0, 0x2e10, 0x2e20, 0x2e30, 0x2e40, 0x2e90]

/-- The device `devid` is present on the bus. -/
def present (bus : PciBus) (devid : Nat) : Bool := (bus devid).isSome

/-- The device identifiers passed to `pci_get_device`, in program order. -/
def tried_ids : List PciEvent → List Nat
  | [] => []
  | PciEvent.pci_get_device devid _ :: tr => devid :: tried_ids tr
  | _ :: tr => tried_ids tr

/-- The device `devid` is present and both of its configuration reads succeed. -/
def usable (bus : PciBus) (devid : Nat) : Bool :=
  match bus devid with
  | none => false
  | some dev => dev.mchbar_lo.isSome && dev.mchbar_hi.isSome

/-- The bus without the device `devid`. -/
def without_device (bus : PciBus) (devid : Nat) : PciBus :=
  fun d => if d = devid then none else bus d

/-! ## Concrete inputs -/

/-- Driver data of a mobile chipset (82965GM) whose stored temperature is `t`. -/
def mobile_data (t : Nat) : gm965temp_data := ⟨0x200000000, 16384, t, 0x2a00⟩

/-- Driver data of a desktop chipset (Q35) whose stored temperature is `t`. -/
def desktop_data (t : Nat) : gm965temp_data := ⟨0x200000000, 16384, t, 0x29b0⟩

/-- A mobile sensor that is enabled and ready, with raw bytes `rtr` and `tof`. -/
def hw_mobile (rtr tof : Nat) : Mmio := fun off _ =>
  if off = TSC1 then 0x8000 else if off = TSS1 then 0x400
  else if off = RTR1 then rtr else if off = TOF1 then tof else 0

/-- A desktop sensor that is enabled and ready, with raw dword `tsttp`. -/
def hw_desktop (tsttp : Nat) : Mmio := fun off _ =>
  if off = G_TSC1 then 0x80 else if off = G_TSS then 0x10
  else if off = TSTTP then tsttp else 0

/-- A mobile sensor that is enabled and never becomes ready. -/
def hw_never_ready : Mmio := fun off _ => if off = TSC1 then 0x8000 else 0

/-- A mobile sensor that is enabled and becomes ready on status read `k`,
with raw bytes `rtr` and `tof`. -/
def hw_ready_on (k rtr tof : Nat) : Mmio := fun off n =>
  if off = TSC1 then 0x8000 else if off = TSS1 then (if n = k then 0x400 else 0)
  else if off = RTR1 then rtr else if off = TOF1 then tof else 0

/-- A mobile sensor found disabled (the control register reads 0 first and
shows the enable bit on the re-read) that is ready, with raw byte 100. -/
def hw_disabled_ready : Mmio := fun off n =>
  if off = TSC1 then (if n = 0 then 0 else 0x8000) else if off = TSS1 then 0x400
  else if off = RTR1 then 100 else 0

/-- A bus with a mobile (GM45) and a desktop (Q35) device. -/
def bus_mobile_and_desktop : PciBus := fun d =>
  if d = 0x2a40 then some ⟨some 1, some 2⟩
  else if d = 0x29b0 then some ⟨some 5, some 0⟩ else none

/-- A bus on which the 82965GM is present but its first configuration read
fails, and a Q35 is present and readable. -/
def bus_unreadable_then_q35 : PciBus := fun d =>
  if d = 0x2a00 then some ⟨none, some 2⟩
  else if d = 0x29b0 then some ⟨some 1, some 2⟩ else none

/-- A bus on which only the 82965GM is present, and its first configuration
read fails. -/
def bus_only_unreadable : PciBus := fun d =>
  if d = 0x2a00 then some ⟨none, some 2⟩ else none

/-- A platform on which every kernel service succeeds, with the given bus. -/
def platform_ok (bus : PciBus) : Platform := ⟨bus, true, true, true, 0, 0, 0⟩


/-! ## The polling loop -/

/-- The loop entered with the value `v` after `n` reads of the status register
makes exactly `m` retries when the ready bit is absent before each of them and
either the counter is exhausted (`m = i`) or the ready bit shows after the
last one. -/
theorem poll_run (gm : Bool) (hw : Mmio) (tss1 tmov : Nat) :
    ∀ (i m n v : Nat) (tr : List Event), m ≤ i →
      (∀ j, j < m → (if j = 0 then v else read_reg gm hw tss1 (n + j - 1)) &&& tmov = 0) →
      (m = i ∨ (if m = 0 then v else read_reg gm hw tss1 (n + m - 1)) &&& tmov ≠ 0) →
      poll gm hw tss1 tmov i n v tr =
        ((if m = 0 then v else read_reg gm hw tss1 (n + m - 1)),
          tr ++ (List.range' n m).flatMap (retry_events gm hw tss1)) := by
  intro i
  induction i with
  | zero =>
    intro m n v tr hm _ _
    obtain rfl : m = 0 := by omega
    simp [poll]
  | succ i ih =>
    intro m n v tr hm hnot hlast
    cases m with
    | zero =>
      have hv : v &&& tmov ≠ 0 := by
        rcases hlast with h | h
        · omega
        · simpa using h
      simp [poll, hv]
    | succ m =>
      have hv : v &&& tmov = 0 := by simpa using hnot 0 (by omega)
      have key := ih m (n + 1) (read_reg gm hw tss1 n)
        (tr ++ [Event.mdelay 1, Event.udelay 300, read_reg_event gm hw tss1 n]) (by omega)
        (by
          intro j hj
          have h := hnot (j + 1) (by omega)
          by_cases hj0 : j = 0
          · subst hj0; simpa using h
          · have e : n + 1 + j - 1 = n + (j + 1) - 1 := by omega
            simpa [hj0, e] using h)
        (by
          rcases hlast with h | h
          · left; omega
          · right
            by_cases hm0 : m = 0
            · subst hm0; simpa using h
            · have e : n + 1 + m - 1 = n + (m + 1) - 1 := by omega
              simpa [hm0, e] using h)
      rw [poll, if_pos hv, key]
      have e1 : n + (m + 1) - 1 = n + m := by omega
      by_cases hm0 : m = 0
      · subst hm0
        simp [retry_events, List.range']
      · have e : n + 1 + m - 1 = n + m := by omega
        simp [hm0, e, e1, retry_events, List.range', List.flatMap_cons]

/-- A call that finds the enable bit set and makes `m` retries: the result in
terms of the decode of the family. -/
theorem update_enabled (hw : Mmio) (data : gm965temp_data) (m : Nat)
    (hen : enable_bit_set hw data) (hm : m ≤ 36)
    (hnot : ∀ j, j < m → ¬ ready_at hw data j)
    (hlast : m = 36 ∨ ready_at hw data m) :
    gm965temp_update_device hw data =
      if ready_at hw data m then
        if IS_GM data then
          ({ data with temp := (read_mobile hw 0).1 },
            polled_events hw data m ++ (read_mobile hw 0).2 ++ [Event.mutex_unlock])
        else
          ({ data with temp := (read_desktop hw).1 },
            polled_events hw data m ++ (read_desktop hw).2 ++ [Event.mutex_unlock])
      else
        ({ data with temp := 0 }, polled_events hw data m ++ [Event.mutex_unlock]) := by
  have hp := poll_run (IS_GM data) hw (if IS_GM data then TSS1 else G_TSS)
    (if IS_GM data then TMOV else G_TMOV) 36 m 1
    (read_reg (IS_GM data) hw (if IS_GM data then TSS1 else G_TSS) 0)
    ([Event.store_temp 0, Event.mutex_lock,
      read_reg_event (IS_GM data) hw (if IS_GM data then TSC1 else G_TSC1) 0,
      read_reg_event (IS_GM data) hw (if IS_GM data then TSS1 else G_TSS) 0]) hm
    (by
      intro j hj
      have h := hnot j hj
      by_cases hj0 : j = 0
      · subst hj0; simpa [ready_at] using h
      · have e : 1 + j - 1 = j := by omega
        simpa [hj0, e, ready_at] using h)
    (by
      rcases hlast with h | h
      · left; exact h
      · right
        by_cases hm0 : m = 0
        · subst hm0; simpa [ready_at] using h
        · have e : 1 + m - 1 = m := by omega
          simpa [hm0, e, ready_at] using h)
  have hval : (if m = 0 then read_reg (IS_GM data) hw (if IS_GM data then TSS1 else G_TSS) 0
      else read_reg (IS_GM data) hw (if IS_GM data then TSS1 else G_TSS) (1 + m - 1))
      = read_reg (IS_GM data) hw (if IS_GM data then TSS1 else G_TSS) m := by
    by_cases hm0 : m = 0
    · subst hm0; simp
    · have e : 1 + m - 1 = m := by omega
      simp [hm0, e]
  rw [hval] at hp
  have hen2 : ¬ (read_reg (IS_GM data) hw (if IS_GM data then TSC1 else G_TSC1) 0
    &&& (if IS_GM data then TSE else G_TSE) = 0) := hen
  unfold gm965temp_update_device
  simp only [MAX_RETRIES, List.cons_append, List.nil_append]
  rw [if_neg hen2, hp]
  simp only [ready_at, polled_events, List.cons_append, List.nil_append]

/-- A call that finds the enable bit clear. -/
theorem update_disabled (hw : Mmio) (data : gm965temp_data)
    (hen : ¬ enable_bit_set hw data) :
    gm965temp_update_device hw data =
      ({ data with temp := 0 },
        [Event.store_temp 0, Event.mutex_lock,
          read_reg_event (IS_GM data) hw (if IS_GM data then TSC1 else G_TSC1) 0,
          Event.iowrite16 (if IS_GM data then TSC1 else G_TSC1)
            ((read_reg (IS_GM data) hw (if IS_GM data then TSC1 else G_TSC1) 0
              ||| (if IS_GM data then TSE else G_TSE)) % 65536),
          read_reg_event (IS_GM data) hw (if IS_GM data then TSC1 else G_TSC1) 1,
          Event.mutex_unlock]) := by
  have hen2 : read_reg (IS_GM data) hw (if IS_GM data then TSC1 else G_TSC1) 0
    &&& (if IS_GM data then TSE else G_TSE) = 0 := by
    simpa [enable_bit_set] using hen
  unfold gm965temp_update_device
  simp only [List.cons_append, List.nil_append]
  rw [if_pos hen2]

/-- Reads of the status register among the events of the retries. -/
theorem count_retry_status (gm : Bool) (hw : Mmio) (tss1 : Nat) (m : Nat) :
    ∀ n, ((List.range' n m).flatMap (retry_events gm hw tss1)).countP (is_read_of tss1)
      = m := by
  induction m with
  | zero => intro n; simp
  | succ m ih =>
    intro n
    rw [List.range'_succ, List.flatMap_cons, List.countP_append, ih]
    cases gm <;> simp [retry_events, read_reg_event, is_read_of, List.countP_cons] <;> omega

/-- Number of status reads up to the end of a polling loop with `m` retries. -/
theorem status_reads_polled (hw : Mmio) (data : gm965temp_data) (m : Nat) :
    status_reads data (polled_events hw data m) = m + 1 := by
  unfold status_reads polled_events
  rw [List.countP_append, count_retry_status]
  cases h : IS_GM data <;>
    simp [read_reg_event, is_read_of, List.countP_cons, TSC1, TSS1, G_TSC1, G_TSS] <;> omega

/-- Reads of a raw temperature register up to the end of the polling loop: none. -/
theorem raw_reads_polled (hw : Mmio) (data : gm965temp_data) (m : Nat) :
    raw_reads (polled_events hw data m) = 0 := by
  have key : ∀ (gm : Bool) (tss1 : Nat), tss1 ≠ RTR1 → tss1 ≠ TOF1 → tss1 ≠ TR1 →
      tss1 ≠ TSTTP → ∀ l n, 
      ((List.range' n l).flatMap (retry_events gm hw tss1)).countP
        (fun e => is_read_of RTR1 e || is_read_of TOF1 e || is_read_of TR1 e
          || is_read_of TSTTP e) = 0 := by
    intro gm tss1 h1 h2 h3 h4 l
    induction l with
    | zero => intro n; simp
    | succ l ih =>
      intro n
      rw [List.range'_succ, List.flatMap_cons, List.countP_append, ih]
      cases gm <;>
        simp [retry_events, read_reg_event, is_read_of, List.countP_cons, h1, h2, h3, h4]
  unfold raw_reads polled_events
  rw [List.countP_append]
  cases h : IS_GM data
  · simp only [Bool.false_eq_true, if_false]
    rw [key false G_TSS (by decide) (by decide) (by decide) (by decide)]
    simp [read_reg_event, is_read_of, List.countP_cons, G_TSC1, G_TSS, RTR1, TOF1, TR1, TSTTP]
  · simp only [if_true]
    rw [key true TSS1 (by decide) (by decide) (by decide) (by decide)]
    simp [read_reg_event, is_read_of, List.countP_cons, TSC1, TSS1, RTR1, TOF1, TR1, TSTTP]

/-- The mobile decode makes no read of the status register. -/
theorem status_reads_read_mobile (hw : Mmio) (data : gm965temp_data) (t : Nat)
    (h : IS_GM data = true) : status_reads data (read_mobile hw t).2 = 0 := by
  unfold status_reads read_mobile
  simp only [h, if_true]
  split <;> simp [is_read_of, List.countP_cons, RTR1, TOF1, TSS1]

/-- The desktop decode makes no read of the status register. -/
theorem status_reads_read_desktop (hw : Mmio) (data : gm965temp_data)
    (h : IS_GM data = false) : status_reads data (read_desktop hw).2 = 0 := by
  unfold status_reads read_desktop
  simp [h, is_read_of, List.countP_cons, TSTTP, G_TSS]

/-! ## Claims about the read sequence -/

/-- C9 (as stated, refuted): on a mobile sensor that is enabled and never
ready, the status register is read 37 times, not 36. -/
theorem retry_bound_counterexample :
    enable_bit_set hw_never_ready (mobile_data 0)
    ∧ (∀ j, ¬ ready_at hw_never_ready (mobile_data 0) j)
    ∧ status_reads (mobile_data 0)
        (gm965temp_update_device hw_never_ready (mobile_data 0)).2 = 37
    ∧ status_reads (mobile_data 0)
        (gm965temp_update_device hw_never_ready (mobile_data 0)).2 ≠ 36 := by
  refine ⟨by decide, ?_, by decide, by decide⟩
  intro j
  simp [ready_at, hw_never_ready, read_reg, igp_read_short, IS_GM, mobile_data,
    PCI_DEVICE_ID_INTEL_82965GM, TSS1, TSC1]

/-- C9 (amended): for either family, when the enable bit is set and the ready
bit is absent from each of the 37 values the status register returns (read
numbers 0 to 36), the call reads the status register exactly 37 times (one
read and `MAX_RETRIES = 36` retries), reads no raw temperature register,
leaves the temperature 0 and `show_temp` prints 0 (there is no error result);
when the ready bit first appears on read number `k ≤ 36` (the `k + 1`-th
read), the call makes exactly `k + 1` reads of the status register. -/
theorem retry_bound (hw : Mmio) (data : gm965temp_data)
    (hen : enable_bit_set hw data) :
    ((∀ j, j ≤ 36 → ¬ ready_at hw data j) →
      status_reads data (gm965temp_update_device hw data).2 = MAX_RETRIES + 1
      ∧ raw_reads (gm965temp_update_device hw data).2 = 0
      ∧ (gm965temp_update_device hw data).1.temp = 0
      ∧ (show_temp hw data SHOW_TEMP).2.2 = 0)
    ∧ (∀ k, k ≤ 36 → first_ready_at hw data k →
      status_reads data (gm965temp_update_device hw data).2 = k + 1) := by
  constructor
  · intro hnev
    have hu := update_enabled hw data 36 hen (le_refl _)
      (fun j hj => hnev j (by omega)) (Or.inl rfl)
    rw [if_neg (hnev 36 (le_refl _))] at hu
    have hs : show_temp hw data SHOW_TEMP =
        ((gm965temp_update_device hw data).1, (gm965temp_update_device hw data).2,
          toInt (gm965temp_update_device hw data).1.temp) := by
      simp [show_temp]
    rw [hs, hu]
    refine ⟨?_, ?_, rfl, by show toInt ((0 : Nat) : Int) = 0; decide⟩
    · simp only [status_reads, List.countP_append]
      have := status_reads_polled hw data 36
      simp only [status_reads] at this
      rw [this]
      simp [is_read_of, MAX_RETRIES]
    · simp only [raw_reads, List.countP_append]
      have := raw_reads_polled hw data 36
      simp only [raw_reads] at this
      rw [this]
      simp [is_read_of]
  · intro k hk hfirst
    have hu := update_enabled hw data k hen hk hfirst.1 (Or.inr hfirst.2)
    rw [if_pos hfirst.2] at hu
    rw [hu]
    cases hgm : IS_GM data
    · simp only [Bool.false_eq_true, if_false]
      have h1 := status_reads_polled hw data k
      have h2 := status_reads_read_desktop hw data hgm
      simp only [status_reads] at h1 h2 ⊢
      rw [List.countP_append, List.countP_append, h1, h2]
      simp [is_read_of]
    · simp only [if_true]
      have h1 := status_reads_polled hw data k
      have h2 := status_reads_read_mobile hw data 0 hgm
      simp only [status_reads] at h1 h2 ⊢
      rw [List.countP_append, List.countP_append, h1, h2]
      simp [is_read_of]

/-- C9 (amended), instances: a mobile sensor that is never ready, and one
that becomes ready on read number 5 (the sixth read). -/
theorem retry_bound_witness :
    (status_reads (mobile_data 0)
        (gm965temp_update_device hw_never_ready (mobile_data 0)).2 = MAX_RETRIES + 1
      ∧ raw_reads (gm965temp_update_device hw_never_ready (mobile_data 0)).2 = 0
      ∧ (gm965temp_update_device hw_never_ready (mobile_data 0)).1.temp = 0
      ∧ (show_temp hw_never_ready (mobile_data 0) SHOW_TEMP).2.2 = 0)
    ∧ status_reads (mobile_data 0)
        (gm965temp_update_device (hw_ready_on 5 100 0) (mobile_data 0)).2 = 5 + 1 :=
  ⟨(retry_bound hw_never_ready (mobile_data 0) (by decide)).1 (by decide),
   (retry_bound (hw_ready_on 5 100 0) (mobile_data 0) (by decide)).2 5 (by decide)
     (by decide)⟩

/-- C8 (as stated, refuted): a mobile sensor found with the enable bit clear,
whose re-read shows the enable bit and whose status register shows the ready
bit with raw byte 100: the call writes the enable bit, re-reads once and
unlocks; it reads neither the status nor a raw register and the temperature
is 0, not the decoded 66340. -/
theorem enable_step_counterexample :
    ¬ enable_bit_set hw_disabled_ready (mobile_data 0)
    ∧ ready_at hw_disabled_ready (mobile_data 0) 0
    ∧ gm965temp_update_device hw_disabled_ready (mobile_data 0) =
        (mobile_data 0,
          [Event.store_temp 0, Event.mutex_lock, Event.ioread16 TSC1 0,
            Event.iowrite16 TSC1 0x8000, Event.ioread16 TSC1 0x8000, Event.mutex_unlock])
    ∧ (gm965temp_update_device hw_disabled_ready (mobile_data 0)).1.temp ≠ 66340
    ∧ (gm965temp_update_device (hw_mobile 100 0) (mobile_data 0)).1.temp = 66340 := by
  decide

/-- C8 (amended): for either family, when the enable bit is clear on entry the
call writes the control register back with the value read OR the enable bit,
re-reads it exactly once, and then unlocks: whatever the re-read shows it
reads neither the status register nor a raw temperature register, and the
temperature is left at 0. -/
theorem enable_step_ends_call (hw : Mmio) (data : gm965temp_data)
    (hen : ¬ enable_bit_set hw data) :
    (gm965temp_update_device hw data).2 =
      [Event.store_temp 0, Event.mutex_lock,
        read_reg_event (IS_GM data) hw (if IS_GM data then TSC1 else G_TSC1) 0,
        Event.iowrite16 (if IS_GM data then TSC1 else G_TSC1)
          (read_reg (IS_GM data) hw (if IS_GM data then TSC1 else G_TSC1) 0
            ||| (if IS_GM data then TSE else G_TSE)),
        read_reg_event (IS_GM data) hw (if IS_GM data then TSC1 else G_TSC1) 1,
        Event.mutex_unlock]
    ∧ status_reads data (gm965temp_update_device hw data).2 = 0
    ∧ raw_reads (gm965temp_update_device hw data).2 = 0
    ∧ (gm965temp_update_device hw data).1.temp = 0 := by
  have hu := update_disabled hw data hen
  have hlt : (read_reg (IS_GM data) hw (if IS_GM data then TSC1 else G_TSC1) 0
      ||| (if IS_GM data then TSE else G_TSE)) % 65536
      = read_reg (IS_GM data) hw (if IS_GM data then TSC1 else G_TSC1) 0
      ||| (if IS_GM data then TSE else G_TSE) := by
    apply Nat.mod_eq_of_lt
    have h16 : (65536 : Nat) = 2 ^ 16 := by norm_num
    rw [h16]
    apply Nat.or_lt_two_pow
    · cases IS_GM data <;> simp [read_reg, igp_read_byte, igp_read_short] <;> omega
    · cases IS_GM data <;> simp [TSE, G_TSE]
  rw [hlt] at hu
  rw [hu]
  refine ⟨rfl, ?_, ?_, rfl⟩
  · cases h : IS_GM data <;>
      simp [status_reads, h, read_reg_event, is_read_of, List.countP_cons, TSC1, TSS1,
        G_TSC1, G_TSS]
  · cases h : IS_GM data <;>
      simp [raw_reads, read_reg_event, is_read_of, List.countP_cons, TSC1, G_TSC1, RTR1,
        TOF1, TR1, TSTTP]

/-- C8 (amended), instance: the mobile sensor found disabled. -/
theorem enable_step_ends_call_witness :
    (gm965temp_update_device hw_disabled_ready (mobile_data 0)).2 =
      [Event.store_temp 0, Event.mutex_lock,
        read_reg_event (IS_GM (mobile_data 0)) hw_disabled_ready
          (if IS_GM (mobile_data 0) then TSC1 else G_TSC1) 0,
        Event.iowrite16 (if IS_GM (mobile_data 0) then TSC1 else G_TSC1)
          (read_reg (IS_GM (mobile_data 0)) hw_disabled_ready
            (if IS_GM (mobile_data 0) then TSC1 else G_TSC1) 0
            ||| (if IS_GM (mobile_data 0) then TSE else G_TSE)),
        read_reg_event (IS_GM (mobile_data 0)) hw_disabled_ready
          (if IS_GM (mobile_data 0) then TSC1 else G_TSC1) 1,
        Event.mutex_unlock]
    ∧ status_reads (mobile_data 0)
        (gm965temp_update_device hw_disabled_ready (mobile_data 0)).2 = 0
    ∧ raw_reads (gm965temp_update_device hw_disabled_ready (mobile_data 0)).2 = 0
    ∧ (gm965temp_update_device hw_disabled_ready (mobile_data 0)).1.temp = 0 :=
  enable_step_ends_call hw_disabled_ready (mobile_data 0) (by decide)

/-- The mobile decode stores nothing when the two raw bytes sum to a multiple
of 256. -/
theorem read_mobile_zero (hw : Mmio) (t : Nat)
    (h : (igp_read_byte hw RTR1 0 + igp_read_byte hw TOF1 0) % 256 = 0) :
    (read_mobile hw t).1 = t := by
  unfold read_mobile
  have hz : toChar (toChar (igp_read_byte hw RTR1 0 : Nat) + (igp_read_byte hw TOF1 0 : Nat))
      = 0 := by
    unfold toChar
    omega
  simp [hz]

/-- C4 (as stated, refuted): with the stored temperature 66340 and a mobile
sensor that is enabled and never ready, the call leaves the temperature 0 and
`show_temp` prints 0. -/
theorem keeps_last_reading_counterexample :
    (mobile_data 66340).temp = 66340
    ∧ enable_bit_set hw_never_ready (mobile_data 66340)
    ∧ (∀ j, ¬ ready_at hw_never_ready (mobile_data 66340) j)
    ∧ (gm965temp_update_device hw_never_ready (mobile_data 66340)).1.temp = 0
    ∧ (gm965temp_update_device hw_never_ready (mobile_data 66340)).1.temp
        ≠ (mobile_data 66340).temp
    ∧ (show_temp hw_never_ready (mobile_data 66340) SHOW_TEMP).2.2 = 0 := by
  refine ⟨by decide, by decide, ?_, by decide, by decide, by decide⟩
  intro j
  simp [ready_at, hw_never_ready, read_reg, igp_read_short, IS_GM, mobile_data,
    PCI_DEVICE_ID_INTEL_82965GM, TSS1, TSC1]

/-- C4 (amended): a read that yields no decoded value reports zero. Whatever
the stored temperature `data.temp` was before, when the enable bit is set and
either the ready bit is absent from all 37 reads of the status register, or
the chipset is a mobile one, the ready bit appears within those reads and the
two raw bytes sum to 0x00 modulo 256, the stored temperature after the call
is 0 and `show_temp` with `SHOW_TEMP` prints 0. -/
theorem no_decode_reports_zero (hw : Mmio) (data : gm965temp_data)
    (hen : enable_bit_set hw data)
    (hno : (∀ j, j ≤ 36 → ¬ ready_at hw data j)
      ∨ (IS_GM data = true ∧ (∃ k, k ≤ 36 ∧ first_ready_at hw data k)
          ∧ (igp_read_byte hw RTR1 0 + igp_read_byte hw TOF1 0) % 256 = 0)) :
    (gm965temp_update_device hw data).1.temp = 0
    ∧ (show_temp hw data SHOW_TEMP).1.temp = 0
    ∧ (show_temp hw data SHOW_TEMP).2.2 = 0 := by
  have hs : show_temp hw data SHOW_TEMP =
      ((gm965temp_update_device hw data).1, (gm965temp_update_device hw data).2,
        toInt (gm965temp_update_device hw data).1.temp) := by
    simp [show_temp]
  have ht : (gm965temp_update_device hw data).1.temp = 0 := by
    rcases hno with hnev | ⟨hgm, ⟨k, hk, hfirst⟩, hsum⟩
    · have hu := update_enabled hw data 36 hen (le_refl _)
        (fun j hj => hnev j (by omega)) (Or.inl rfl)
      rw [if_neg (hnev 36 (le_refl _))] at hu
      rw [hu]
    · have hu := update_enabled hw data k hen hk hfirst.1 (Or.inr hfirst.2)
      rw [if_pos hfirst.2, if_pos hgm] at hu
      rw [hu]
      exact read_mobile_zero hw 0 hsum
  rw [hs]
  refine ⟨ht, ht, ?_⟩
  show toInt ((gm965temp_update_device hw data).1.temp : Int) = 0
  rw [ht]
  decide

/-- C4 (amended), instances: stored temperature 66340, a mobile sensor that
is never ready, and one that is ready with raw bytes 0x90 and 0x70. -/
theorem no_decode_reports_zero_witness :
    ((gm965temp_update_device hw_never_ready (mobile_data 66340)).1.temp = 0
      ∧ (show_temp hw_never_ready (mobile_data 66340) SHOW_TEMP).1.temp = 0
      ∧ (show_temp hw_never_ready (mobile_data 66340) SHOW_TEMP).2.2 = 0)
    ∧ ((gm965temp_update_device (hw_mobile 0x90 0x70) (mobile_data 66340)).1.temp = 0
      ∧ (show_temp (hw_mobile 0x90 0x70) (mobile_data 66340) SHOW_TEMP).1.temp = 0
      ∧ (show_temp (hw_mobile 0x90 0x70) (mobile_data 66340) SHOW_TEMP).2.2 = 0) :=
  ⟨no_decode_reports_zero hw_never_ready (mobile_data 66340) (by decide)
      (Or.inl (by decide)),
   no_decode_reports_zero (hw_mobile 0x90 0x70) (mobile_data 66340) (by decide)
      (Or.inr ⟨by decide, ⟨0, by decide, by decide⟩, by decide⟩)⟩

/-- C1 (the code at the failing input): a mobile sensor, enabled and ready,
with raw bytes RTR1 = 0x10 and TOF1 = 0x80, so that their sum is 144. The
call stores 305115, the value of the formula at 144 - 256 = -112, where the
formula at 144 gives 34805. With a sum of 100 it stores 66340. -/
theorem mobile_decode_high_sum :
    IS_GM (mobile_data 0) = true
    ∧ enable_bit_set (hw_mobile 0x10 0x80) (mobile_data 0)
    ∧ ready_at (hw_mobile 0x10 0x80) (mobile_data 0) 0
    ∧ (igp_read_byte (hw_mobile 0x10 0x80) RTR1 0
        + igp_read_byte (hw_mobile 0x10 0x80) TOF1 0) % 256 = 144
    ∧ (gm965temp_update_device (hw_mobile 0x10 0x80) (mobile_data 0)).1.temp = 305115
    ∧ (mobile_poly (-112)).tdiv 10 = 305115
    ∧ (mobile_poly 144).tdiv 10 = 34805
    ∧ (gm965temp_update_device (hw_mobile 100 0) (mobile_data 0)).1.temp = 66340 := by
  decide

/-- C2 (the code at the failing input): a mobile sensor, enabled and ready,
with raw bytes RTR1 = 0x7F and TOF1 = 0x80, so that their sum is 0xFF. The
call takes the formula branch and stores 162158, the value of the formula
at -1. With the raw bytes 0x80 and 0x80, whose 8-bit sum is 0x00, it stores
nothing after the initial 0. -/
theorem mobile_sentinel_ff :
    IS_GM (mobile_data 0) = true
    ∧ enable_bit_set (hw_mobile 0x7F 0x80) (mobile_data 0)
    ∧ ready_at (hw_mobile 0x7F 0x80) (mobile_data 0) 0
    ∧ (igp_read_byte (hw_mobile 0x7F 0x80) RTR1 0
        + igp_read_byte (hw_mobile 0x7F 0x80) TOF1 0) % 256 = 0xFF
    ∧ gm965temp_update_device (hw_mobile 0x7F 0x80) (mobile_data 0) =
        ({ mobile_data 0 with temp := 162158 },
          [Event.store_temp 0, Event.mutex_lock, Event.ioread16 TSC1 0x8000,
            Event.ioread16 TSS1 0x400, Event.ioread8 RTR1 0x7F, Event.ioread8 TOF1 0x80,
            Event.store_temp 162158, Event.mutex_unlock])
    ∧ (mobile_poly (-1)).tdiv 10 = 162158
    ∧ (gm965temp_update_device (hw_mobile 0x80 0x80) (mobile_data 0)).2 =
        [Event.store_temp 0, Event.mutex_lock, Event.ioread16 TSC1 0x8000,
          Event.ioread16 TSS1 0x400, Event.ioread8 RTR1 0x80, Event.ioread8 TOF1 0x80,
          Event.mutex_unlock] := by
  decide

/-- C10 (the code at the failing input): a mobile sensor, enabled and ready,
with raw byte 100. The trace of the call starts with the store of 0 to the
temperature, and only then takes the lock; the register accesses and the
store of the decoded value lie between the lock and the unlock. -/
theorem store_before_lock :
    (gm965temp_update_device (hw_mobile 100 0) (mobile_data 66340)).2 =
      [Event.store_temp 0, Event.mutex_lock, Event.ioread16 TSC1 0x8000,
        Event.ioread16 TSS1 0x400, Event.ioread8 RTR1 100, Event.ioread8 TOF1 0,
        Event.store_temp 66340, Event.mutex_unlock] := by
  decide

/-! ## The decode of the desktop family -/

/-- Masking with a run of `w` ones at bit `s` and shifting right by `s` gives
the bits `s + w - 1 : s`. -/
theorem and_shiftRight_field (x w s : Nat) :
    (x &&& ((2 ^ w - 1) <<< s)) >>> s = x / 2 ^ s % 2 ^ w := by
  apply Nat.eq_of_testBit_eq
  intro i
  rw [Nat.testBit_shiftRight, Nat.testBit_and, Nat.testBit_shiftLeft, Nat.testBit_mod_two_pow,
    ← Nat.shiftRight_eq_div_pow, Nat.testBit_shiftRight, Nat.testBit_two_pow_sub_one]
  have e : s + i - s = i := by omega
  have h : s + i ≥ s := by omega
  simp [e, h, Bool.and_comm]

/-- Truncating division by 10 does not increase the magnitude. -/
theorem tdiv_ten_bounds (v : Int) (b : Int) (h1 : -b ≤ v) (h2 : v ≤ b) :
    -b ≤ v.tdiv 10 ∧ v.tdiv 10 ≤ b := by
  have h := Int.natAbs_tdiv v 10
  have h3 : v.natAbs.div (10 : Int).natAbs ≤ v.natAbs := Nat.div_le_self _ _
  omega

/-- A value in the range of `int` survives the store to an `unsigned int` and
the print with the conversion `%d`. -/
theorem toInt_toUInt (v : Int) (h1 : -2147483648 ≤ v) (h2 : v < 2147483648) :
    toInt (toUInt v) = v := by
  unfold toInt toUInt
  omega

/-- The fields and the value of the desktop decode. -/
theorem read_desktop_value (hw : Mmio) :
    (read_desktop hw).1 =
      toUInt ((desktop_poly
        ((bit_field (igp_read_int hw TSTTP 0) 15 8 : Nat)
          + toChar (bit_field (igp_read_int hw TSTTP 0) 31 24 : Nat))
        (toChar (bit_field (igp_read_int hw TSTTP 0) 31 24 : Nat))).tdiv 10)
    ∧ toInt (read_desktop hw).1 =
      (desktop_poly
        ((bit_field (igp_read_int hw TSTTP 0) 15 8 : Nat)
          + toChar (bit_field (igp_read_int hw TSTTP 0) 31 24 : Nat))
        (toChar (bit_field (igp_read_int hw TSTTP 0) 31 24 : Nat))).tdiv 10 := by
  have hh : (igp_read_int hw TSTTP 0 &&& HTPS_MASK) >>> 8
      = bit_field (igp_read_int hw TSTTP 0) 15 8 :=
    and_shiftRight_field (igp_read_int hw TSTTP 0) 8 8
  have hr : (igp_read_int hw TSTTP 0 &&& RELT_MASK) >>> 24
      = bit_field (igp_read_int hw TSTTP 0) 31 24 :=
    and_shiftRight_field (igp_read_int hw TSTTP 0) 8 24
  have hhb : bit_field (igp_read_int hw TSTTP 0) 15 8 < 256 := by
    unfold bit_field; omega
  have hrb1 : -128 ≤ toChar (bit_field (igp_read_int hw TSTTP 0) 31 24 : Nat) := by
    unfold toChar; omega
  have hrb2 : toChar (bit_field (igp_read_int hw TSTTP 0) 31 24 : Nat) ≤ 127 := by
    unfold toChar; omega
  have ht : toInt (toUInt ((bit_field (igp_read_int hw TSTTP 0) 15 8 : Nat)
      + toChar (bit_field (igp_read_int hw TSTTP 0) 31 24 : Nat)))
      = (bit_field (igp_read_int hw TSTTP 0) 15 8 : Nat)
        + toChar (bit_field (igp_read_int hw TSTTP 0) 31 24 : Nat) :=
    toInt_toUInt _ (by omega) (by omega)
  have hval : (read_desktop hw).1 =
      toUInt ((desktop_poly
        ((bit_field (igp_read_int hw TSTTP 0) 15 8 : Nat)
          + toChar (bit_field (igp_read_int hw TSTTP 0) 31 24 : Nat))
        (toChar (bit_field (igp_read_int hw TSTTP 0) 31 24 : Nat))).tdiv 10) := by
    unfold read_desktop
    simp only [hh, hr, ht]
  refine ⟨hval, ?_⟩
  rw [hval]
  generalize (bit_field (igp_read_int hw TSTTP 0) 15 8 : Nat) = h at hhb
  generalize toChar (bit_field (igp_read_int hw TSTTP 0) 31 24 : Nat) = r at hrb1 hrb2
  have hh0 : (0 : Int) ≤ (h : Int) := Int.ofNat_nonneg h
  have hh1 : (h : Int) ≤ 255 := by omega
  have hp1 : -10000000 ≤ desktop_poly ((h : Int) + r) r := by
    unfold desktop_poly
    nlinarith [mul_nonneg (show (0 : Int) ≤ (h : Int) + r + 128 by omega)
        (show (0 : Int) ≤ r + 128 by omega),
      mul_nonneg (show (0 : Int) ≤ 382 - ((h : Int) + r) by omega)
        (show (0 : Int) ≤ 127 - r by omega),
      mul_nonneg (show (0 : Int) ≤ (h : Int) + r + 128 by omega)
        (show (0 : Int) ≤ 127 - r by omega),
      mul_nonneg (show (0 : Int) ≤ 382 - ((h : Int) + r) by omega)
        (show (0 : Int) ≤ r + 128 by omega)]
  have hp2 : desktop_poly ((h : Int) + r) r ≤ 10000000 := by
    unfold desktop_poly
    nlinarith [mul_nonneg (show (0 : Int) ≤ (h : Int) + r + 128 by omega)
        (show (0 : Int) ≤ r + 128 by omega),
      mul_nonneg (show (0 : Int) ≤ 382 - ((h : Int) + r) by omega)
        (show (0 : Int) ≤ 127 - r by omega),
      mul_nonneg (show (0 : Int) ≤ (h : Int) + r + 128 by omega)
        (show (0 : Int) ≤ 127 - r by omega),
      mul_nonneg (show (0 : Int) ≤ 382 - ((h : Int) + r) by omega)
        (show (0 : Int) ≤ r + 128 by omega)]
  have hb := tdiv_ten_bounds _ 10000000 hp1 hp2
  exact toInt_toUInt _ (by omega) (by omega)

/-- C3 (as stated, refuted): a desktop sensor, enabled and ready, whose TSTTP
reads 0x80000000, so that bits 31:24 are 128 and bits 15:8 are 0. The call
stores 328973 (the expression at `relt = -128`), where the expression at
`relt = 128`, `temp_val = 128` gives 45555. -/
theorem desktop_decode_counterexample :
    IS_GM (desktop_data 0) = false
    ∧ enable_bit_set (hw_desktop 0x80000000) (desktop_data 0)
    ∧ ready_at (hw_desktop 0x80000000) (desktop_data 0) 0
    ∧ bit_field (igp_read_int (hw_desktop 0x80000000) TSTTP 0) 31 24 = 128
    ∧ bit_field (igp_read_int (hw_desktop 0x80000000) TSTTP 0) 15 8 = 0
    ∧ (gm965temp_update_device (hw_desktop 0x80000000) (desktop_data 0)).1.temp = 328973
    ∧ (desktop_poly (0 + 128) 128).tdiv 10 = 45555
    ∧ (desktop_poly (0 + -128) (-128)).tdiv 10 = 328973 := by
  decide

/-- C3 (amended): on a desktop chipset, when the enable bit is set and the
ready bit appears within the 37 reads of the status register, for every value
of TSTTP, with `relt` = bits 31:24 read as a signed 8-bit number, `htps` =
bits 15:8 and `temp_val = htps + relt`, the call always stores (there is no
sentinel skip) the value `(16*temp_val*relt - 11071*temp_val + 1610500) / 10`,
division truncating toward zero, converted to `unsigned int`; read back as an
`int`, as `show_temp` prints it, the stored value is that quotient itself. In
particular `htps = 10`, `relt = 20` gives 128797. -/
theorem desktop_decode (hw : Mmio) (data : gm965temp_data)
    (hgm : IS_GM data = false) (hen : enable_bit_set hw data)
    (k : Nat) (hk : k ≤ 36) (hfirst : first_ready_at hw data k) :
    (gm965temp_update_device hw data).1.temp =
      toUInt ((desktop_poly
        ((bit_field (igp_read_int hw TSTTP 0) 15 8 : Nat)
          + toChar (bit_field (igp_read_int hw TSTTP 0) 31 24 : Nat))
        (toChar (bit_field (igp_read_int hw TSTTP 0) 31 24 : Nat))).tdiv 10)
    ∧ (show_temp hw data SHOW_TEMP).2.2 =
      (desktop_poly
        ((bit_field (igp_read_int hw TSTTP 0) 15 8 : Nat)
          + toChar (bit_field (igp_read_int hw TSTTP 0) 31 24 : Nat))
        (toChar (bit_field (igp_read_int hw TSTTP 0) 31 24 : Nat))).tdiv 10
    ∧ Event.store_temp (gm965temp_update_device hw data).1.temp
        ∈ (gm965temp_update_device hw data).2
    ∧ (bit_field (igp_read_int hw TSTTP 0) 15 8 = 10 →
        bit_field (igp_read_int hw TSTTP 0) 31 24 = 20 →
        (gm965temp_update_device hw data).1.temp = 128797) := by
  have hu := update_enabled hw data k hen hk hfirst.1 (Or.inr hfirst.2)
  rw [if_pos hfirst.2, if_neg (by simp [hgm])] at hu
  have hv := read_desktop_value hw
  have hs : show_temp hw data SHOW_TEMP =
      ((gm965temp_update_device hw data).1, (gm965temp_update_device hw data).2,
        toInt (gm965temp_update_device hw data).1.temp) := by
    simp [show_temp]
  have ht : (gm965temp_update_device hw data).1.temp = (read_desktop hw).1 := by
    rw [hu]
  refine ⟨by rw [ht]; exact hv.1, by rw [hs]; show toInt _ = _; rw [ht]; exact hv.2, ?_, ?_⟩
  · rw [ht, hu]
    simp [read_desktop]
  · intro h1 h2
    rw [ht, hv.1, h1, h2]
    decide

/-- C3 (amended), instance: a desktop sensor whose TSTTP reads 0x14000A33
(`relt = 20`, `htps = 10`, bits 7:0 = 0x33). -/
theorem desktop_decode_witness :
    (gm965temp_update_device (hw_desktop 0x14000A33) (desktop_data 0)).1.temp =
      toUInt ((desktop_poly
        ((bit_field (igp_read_int (hw_desktop 0x14000A33) TSTTP 0) 15 8 : Nat)
          + toChar (bit_field (igp_read_int (hw_desktop 0x14000A33) TSTTP 0) 31 24 : Nat))
        (toChar (bit_field (igp_read_int (hw_desktop 0x14000A33) TSTTP 0) 31 24 : Nat))).tdiv
          10)
    ∧ (gm965temp_update_device (hw_desktop 0x14000A33) (desktop_data 0)).1.temp = 128797 :=
  have h := desktop_decode (hw_desktop 0x14000A33) (desktop_data 0) (by decide) (by decide)
    0 (by decide) (by decide)
  ⟨h.1, h.2.2.2 (by decide) (by decide)⟩

/-! ## Device discovery -/

/-- The result of `gm965_find_registers` on a device whose two configuration
reads succeed. -/
theorem find_registers_ok (bus : PciBus) (data : gm965temp_data) (devid lo hi : Nat)
    (hdev : bus devid = some ⟨some lo, some hi⟩) :
    (gm965_find_registers bus data devid).1 = 0
    ∧ (gm965_find_registers bus data devid).2.1 =
      { data with
        igp_base := (lo % 4294967296 ||| ((hi % 4294967296) <<< 32) % 18446744073709551616)
          &&& MCHBAR_MASK
        igp_len := 16 * 1024
        chipset_id := devid } := by
  unfold gm965_find_registers
  simp [hdev]

/-- The bits of `MCHBAR_MASK` are the bits 35:14. -/
theorem testBit_MCHBAR_MASK (i : Nat) :
    MCHBAR_MASK.testBit i = decide (14 ≤ i ∧ i ≤ 35) := by
  have h : MCHBAR_MASK = (2 ^ 22 - 1) <<< 14 := by decide
  rw [h, Nat.testBit_shiftLeft, Nat.testBit_two_pow_sub_one]
  by_cases h1 : 14 ≤ i <;> by_cases h2 : i ≤ 35 <;> simp [h1, h2] <;> omega

/-- C6: for 32-bit configuration values `low` and `high`, a successful
`gm965_find_registers` sets `igp_base` to `(high << 32) | low` masked to the
bits 35:14, which is a multiple of 16384 below 2^36, and `igp_len` to 16384;
for `low = 1`, `high = 2` the base is 0x200000000. -/
theorem find_registers_masking (bus : PciBus) (data : gm965temp_data)
    (devid low high : Nat) (hdev : bus devid = some ⟨some low, some high⟩)
    (hl : low < 2 ^ 32) (hh : high < 2 ^ 32) :
    (gm965_find_registers bus data devid).1 = 0
    ∧ (gm965_find_registers bus data devid).2.1.igp_base
        = ((high <<< 32) ||| low) &&& 0xfffffc000
    ∧ (∀ i, (gm965_find_registers bus data devid).2.1.igp_base.testBit i
        = (decide (14 ≤ i ∧ i ≤ 35) && ((high <<< 32) ||| low).testBit i))
    ∧ 16384 ∣ (gm965_find_registers bus data devid).2.1.igp_base
    ∧ (gm965_find_registers bus data devid).2.1.igp_base < 2 ^ 36
    ∧ (gm965_find_registers bus data devid).2.1.igp_len = 16384
    ∧ (low = 1 → high = 2 →
        (gm965_find_registers bus data devid).2.1.igp_base = 0x200000000) := by
  obtain ⟨h0, h1⟩ := find_registers_ok bus data devid low high hdev
  have e1 : low % 4294967296 = low := Nat.mod_eq_of_lt (by omega)
  have e2 : high % 4294967296 = high := Nat.mod_eq_of_lt (by omega)
  have e3 : (high <<< 32) % 18446744073709551616 = high <<< 32 := by
    apply Nat.mod_eq_of_lt
    rw [Nat.shiftLeft_eq]
    omega
  have hb : (gm965_find_registers bus data devid).2.1.igp_base
      = ((high <<< 32) ||| low) &&& MCHBAR_MASK := by
    rw [h1, e1, e2, e3, Nat.lor_comm]
  refine ⟨h0, hb, ?_, ?_, ?_, by rw [h1], ?_⟩
  · intro i
    rw [hb, Nat.testBit_and, testBit_MCHBAR_MASK, Bool.and_comm]
  · rw [hb, Nat.dvd_iff_mod_eq_zero]
    have h14 : (16384 : Nat) = 2 ^ 14 := by norm_num
    rw [h14, ← Nat.and_pow_two_sub_one_eq_mod, Nat.and_assoc]
    have : MCHBAR_MASK &&& (2 ^ 14 - 1) = 0 := by decide
    rw [this, Nat.and_zero]
  · rw [hb]
    exact Nat.and_lt_two_pow _ (by decide)
  · intro hl1 hh2
    rw [hb, hl1, hh2]
    decide

/-- C6, instance: the GM45 of the bus with `low = 1`, `high = 2`. -/
theorem find_registers_masking_witness :
    (gm965_find_registers bus_mobile_and_desktop (mobile_data 0) 0x2a40).1 = 0
    ∧ (gm965_find_registers bus_mobile_and_desktop (mobile_data 0) 0x2a40).2.1.igp_base
        = 0x200000000
    ∧ (gm965_find_registers bus_mobile_and_desktop (mobile_data 0) 0x2a40).2.1.igp_len
        = 16384 :=
  have h := find_registers_masking bus_mobile_and_desktop (mobile_data 0) 0x2a40 1 2
    (by decide) (by decide) (by decide)
  ⟨h.1, h.2.2.2.2.2.2 rfl rfl, h.2.2.2.2.2.1⟩

/-- The identifiers tried by two runs, one after the other. -/
theorem tried_ids_append (a b : List PciEvent) :
    tried_ids (a ++ b) = tried_ids a ++ tried_ids b := by
  induction a with
  | nil => simp [tried_ids]
  | cons e a ih => cases e <;> simp [tried_ids, ih]

/-- The function `gm965_find_registers` on an absent device. -/
theorem find_registers_absent (bus : PciBus) (data : gm965temp_data) (devid : Nat)
    (h : bus devid = none) :
    gm965_find_registers bus data devid
      = (-ENODEV, data, [PciEvent.pci_get_device devid false]) := by
  unfold gm965_find_registers
  simp [h]

/-- The function `gm965_find_registers` on a device whose first configuration
read fails. -/
theorem find_registers_unreadable (bus : PciBus) (data : gm965temp_data) (devid : Nat)
    (dev : pci_dev) (h : bus devid = some dev) (hlo : dev.mchbar_lo = none) :
    gm965_find_registers bus data devid
      = (-ENODEV, data, [PciEvent.pci_get_device devid true,
          PciEvent.pci_read_config_dword devid MCHBAR_I965 false,
          PciEvent.pci_dev_put devid]) := by
  unfold gm965_find_registers
  simp [h, hlo]

/-- The function `gm965_find_registers` on a present device whose
configuration reads succeed. -/
theorem find_registers_present (bus : PciBus) (data : gm965temp_data) (devid : Nat)
    (dev : pci_dev) (h : bus devid = some dev)
    (hlo : dev.mchbar_lo.isSome) (hhi : dev.mchbar_hi.isSome) :
    (gm965_find_registers bus data devid).1 = 0
    ∧ (gm965_find_registers bus data devid).2.1.chipset_id = devid
    ∧ tried_ids (gm965_find_registers bus data devid).2.2 = [devid] := by
  obtain ⟨lo, hlo2⟩ := Option.isSome_iff_exists.mp hlo
  obtain ⟨hi, hhi2⟩ := Option.isSome_iff_exists.mp hhi
  unfold gm965_find_registers
  simp only [h, hlo2, hhi2]
  and_intros
  · trivial
  · trivial
  · split <;> simp [tried_ids]

/-- The scan over a zero-terminated array of non-zero identifiers. -/
theorem probe_scan_spec (bus : PciBus)
    (hread : ∀ devid dev, bus devid = some dev →
      dev.mchbar_lo.isSome ∧ dev.mchbar_hi.isSome) :
    ∀ (l : List Nat) (a : Nat) (data : gm965temp_data), (∀ x ∈ l, x ≠ 0) →
      (∀ devid, (a :: l).find? (present bus) = some devid →
        (probe_scan bus (a :: l ++ [0]) data).1 = 0
        ∧ (probe_scan bus (a :: l ++ [0]) data).2.1.chipset_id = devid
        ∧ tried_ids (probe_scan bus (a :: l ++ [0]) data).2.2
            = (a :: l).takeWhile (fun d => !present bus d) ++ [devid])
      ∧ ((a :: l).find? (present bus) = none →
        (probe_scan bus (a :: l ++ [0]) data).1 = -ENODEV
        ∧ (probe_scan bus (a :: l ++ [0]) data).2.1 = data
        ∧ tried_ids (probe_scan bus (a :: l ++ [0]) data).2.2 = a :: l) := by
  intro l
  induction l with
  | nil =>
    intro a data _
    cases hb : bus a with
    | none =>
      have hf := find_registers_absent bus data a hb
      simp [probe_scan, hf, present, hb, tried_ids, ENODEV]
    | some dev =>
      obtain ⟨h1, h2, h3⟩ := find_registers_present bus data a dev hb
        (hread a dev hb).1 (hread a dev hb).2
      simp [probe_scan, present, hb, h1, h2, h3]
  | cons b l ih =>
    intro a data hnz
    have hb0 : b ≠ 0 := hnz b (by simp)
    have hl : ∀ x ∈ l, x ≠ 0 := fun x hx => hnz x (by simp [hx])
    cases hb : bus a with
    | none =>
      have hf := find_registers_absent bus data a hb
      have hstep : probe_scan bus (a :: (b :: l) ++ [0]) data =
          ((probe_scan bus (b :: l ++ [0]) data).1, (probe_scan bus (b :: l ++ [0]) data).2.1,
            [PciEvent.pci_get_device a false] ++ (probe_scan bus (b :: l ++ [0]) data).2.2) := by
        simp [probe_scan, hf, hb0, ENODEV]
      have hpa : present bus a = false := by simp [present, hb]
      obtain ⟨i1, i2⟩ := ih b data hl
      rw [hstep]
      constructor
      · intro devid hfind
        rw [List.find?_cons_of_neg _ (by simp [hpa])] at hfind
        obtain ⟨j1, j2, j3⟩ := i1 devid hfind
        refine ⟨j1, j2, ?_⟩
        have e : (a :: b :: l).takeWhile (fun d => !present bus d)
            = a :: (b :: l).takeWhile (fun d => !present bus d) :=
          List.takeWhile_cons_of_pos (by simp [hpa])
        rw [e, tried_ids_append, j3]
        simp [tried_ids]
      · intro hfind
        rw [List.find?_cons_of_neg _ (by simp [hpa])] at hfind
        obtain ⟨j1, j2, j3⟩ := i2 hfind
        refine ⟨j1, j2, ?_⟩
        rw [tried_ids_append, j3]
        simp [tried_ids]
    | some dev =>
      obtain ⟨h1, h2, h3⟩ := find_registers_present bus data a dev hb
        (hread a dev hb).1 (hread a dev hb).2
      have hpa : present bus a = true := by simp [present, hb]
      have hstep : probe_scan bus (a :: (b :: l) ++ [0]) data
          = gm965_find_registers bus data a := by
        simp [probe_scan, h1]
      rw [hstep]
      constructor
      · intro devid hfind
        rw [List.find?_cons_of_pos _ hpa] at hfind
        have e : a = devid := by simpa using hfind
        subst e
        refine ⟨h1, h2, ?_⟩
        rw [h3, List.takeWhile_cons_of_neg (by simp [hpa])]
        simp
      · intro hfind
        rw [List.find?_cons_of_pos _ hpa] at hfind
        simp at hfind

/-- C5: on a bus whose present devices answer their configuration reads, the
scan of `gm965temp_probe` over `chipset_ids` tries the identifiers in the
order of the list, stops at the first present one and leaves it in
`chipset_id`; it fails, with `-ENODEV` and after trying all eleven, exactly
when none is present; and when a mobile identifier is present the chipset
chosen is a mobile one, whatever desktop devices are present. -/
theorem discovery_order (bus : PciBus) (data : gm965temp_data)
    (hread : ∀ devid dev, bus devid = some dev →
      dev.mchbar_lo.isSome ∧ dev.mchbar_hi.isSome) :
    (∀ devid, supported_ids.find? (present bus) = some devid →
      (probe_scan bus chipset_ids data).1 = 0
      ∧ (probe_scan bus chipset_ids data).2.1.chipset_id = devid
      ∧ tried_ids (probe_scan bus chipset_ids data).2.2
          = supported_ids.takeWhile (fun d => !present bus d) ++ [devid])
    ∧ ((probe_scan bus chipset_ids data).1 ≠ 0 ↔
        ∀ devid ∈ supported_ids, present bus devid = false)
    ∧ ((probe_scan bus chipset_ids data).1 ≠ 0 →
        (probe_scan bus chipset_ids data).1 = -ENODEV
        ∧ tried_ids (probe_scan bus chipset_ids data).2.2 = supported_ids)
    ∧ ((∃ devid ∈ [0x2a00, 0x2a10, 0x2a40], present bus devid = true) →
        (probe_scan bus chipset_ids data).1 = 0
        ∧ IS_GM (probe_scan bus chipset_ids data).2.1 = true) := by
  have hspec := probe_scan_spec bus hread
    [0x2a10, 0x2a40, 0x29b0, 0x29c0, 0x29d0, 0x2e10, 0x2e20, 0x2e30, 0x2e40, 0x2e90]
    0x2a00 data (by decide)
  have hids : (0x2a00 :: [0x2a10, 0x2a40, 0x29b0, 0x29c0, 0x29d0, 0x2e10, 0x2e20, 0x2e30,
      0x2e40, 0x2e90] ++ [0] : List Nat) = chipset_ids := by decide
  have hsup : (0x2a00 :: [0x2a10, 0x2a40, 0x29b0, 0x29c0, 0x29d0, 0x2e10, 0x2e20, 0x2e30,
      0x2e40, 0x2e90] : List Nat) = supported_ids := by decide
  rw [hids, hsup] at hspec
  obtain ⟨hsome, hnone⟩ := hspec
  have hfail : (probe_scan bus chipset_ids data).1 ≠ 0 →
      supported_ids.find? (present bus) = none := by
    intro hne
    cases hf : supported_ids.find? (present bus) with
    | none => rfl
    | some devid => exact absurd (hsome devid hf).1 hne
  refine ⟨hsome, ⟨?_, ?_⟩, ?_, ?_⟩
  · intro hne devid hmem
    have := List.find?_eq_none.mp (hfail hne) devid hmem
    simpa using this
  · intro hall
    have hf : supported_ids.find? (present bus) = none := by
      apply List.find?_eq_none.mpr
      intro x hx
      simp [hall x hx]
    rw [(hnone hf).1]
    decide
  · intro hne
    exact ⟨(hnone (hfail hne)).1, (hnone (hfail hne)).2.2⟩
  · rintro ⟨devid, hmem, hp⟩
    have hfind : ∃ m, supported_ids.find? (present bus) = some m
        ∧ (m = 0x2a00 ∨ m = 0x2a10 ∨ m = 0x2a40) := by
      cases h1 : present bus 0x2a00
      · cases h2 : present bus 0x2a10
        · cases h3 : present bus 0x2a40
          · simp at hmem
            rcases hmem with rfl | rfl | rfl <;> simp_all
          · exact ⟨0x2a40, by simp [supported_ids, List.find?, h1, h2, h3], by simp⟩
        · exact ⟨0x2a10, by simp [supported_ids, List.find?, h1, h2], by simp⟩
      · exact ⟨0x2a00, by simp [supported_ids, List.find?, h1], by simp⟩
    obtain ⟨m, hm, hcase⟩ := hfind
    obtain ⟨j1, j2, _⟩ := hsome m hm
    refine ⟨j1, ?_⟩
    unfold IS_GM
    rw [j2]
    rcases hcase with rfl | rfl | rfl <;> decide

/-- C5, instance: a bus with a GM45 and a Q35. The scan tries 0x2a00, 0x2a10
and 0x2a40, and chooses the mobile 0x2a40. -/
theorem discovery_order_witness :
    (probe_scan bus_mobile_and_desktop chipset_ids (mobile_data 0)).1 = 0
    ∧ (probe_scan bus_mobile_and_desktop chipset_ids (mobile_data 0)).2.1.chipset_id = 0x2a40
    ∧ tried_ids (probe_scan bus_mobile_and_desktop chipset_ids (mobile_data 0)).2.2
        = supported_ids.takeWhile (fun d => !present bus_mobile_and_desktop d) ++ [0x2a40] :=
  (discovery_order bus_mobile_and_desktop (mobile_data 0) (by
    intro devid dev h
    unfold bus_mobile_and_desktop at h
    split at h
    · cases h; exact ⟨rfl, rfl⟩
    · split at h
      · cases h; exact ⟨rfl, rfl⟩
      · cases h)).1 0x2a40 (by decide)

/-- Two buses on which `gm965_find_registers` returns the same code and data
give the same code and data for the whole scan. -/
theorem probe_scan_congr (bus1 bus2 : PciBus)
    (h : ∀ data devid,
      (gm965_find_registers bus1 data devid).1 = (gm965_find_registers bus2 data devid).1
      ∧ (gm965_find_registers bus1 data devid).2.1
          = (gm965_find_registers bus2 data devid).2.1) :
    ∀ (l : List Nat) (data : gm965temp_data),
      (probe_scan bus1 l data).1 = (probe_scan bus2 l data).1
      ∧ (probe_scan bus1 l data).2.1 = (probe_scan bus2 l data).2.1 := by
  intro l
  induction l with
  | nil => intro data; simp [probe_scan]
  | cons a l ih =>
    intro data
    obtain ⟨h1, h2⟩ := h data a
    by_cases hc : (gm965_find_registers bus2 data a).1 ≠ 0 ∧ l.headD 0 ≠ 0
    · have hc1 : (gm965_find_registers bus1 data a).1 ≠ 0 ∧ l.headD 0 ≠ 0 := by
        rw [h1]; exact hc
      simp only [probe_scan, if_pos hc, if_pos hc1]
      rw [h2]
      exact ih _
    · have hc1 : ¬ ((gm965_find_registers bus1 data a).1 ≠ 0 ∧ l.headD 0 ≠ 0) := by
        rw [h1]; exact hc
      simp only [probe_scan, if_neg hc, if_neg hc1]
      exact ⟨h1, h2⟩

/-- C7 (as stated, refuted): the 82965GM is present and its first
configuration read fails, a Q35 is present and readable, every kernel service
succeeds: `gm965temp_probe` returns 0 and installs the data of the Q35. -/
theorem config_read_failure_counterexample :
    (∃ dev, bus_unreadable_then_q35 0x2a00 = some dev ∧ dev.mchbar_lo = none)
    ∧ (gm965_find_registers bus_unreadable_then_q35 ⟨0, 0, 0, 0⟩ 0x2a00).1 = -ENODEV
    ∧ (gm965temp_probe (platform_ok bus_unreadable_then_q35)).1 = 0
    ∧ (gm965temp_probe (platform_ok bus_unreadable_then_q35)).2.1
        = some ⟨0x200000000, 16384, 0, 0x29b0⟩ := by
  refine ⟨⟨⟨none, some 2⟩, by decide, rfl⟩, by decide, by decide, by decide⟩

/-- On a bus where the device `devid` is present and the read of its
window-base-low register fails, `gm965temp_probe` returns the code and the
instance it returns on the bus without that device. -/
theorem probe_without_unreadable (p : Platform) (devid : Nat) (dev : pci_dev)
    (hdev : p.bus devid = some dev) (hlo : dev.mchbar_lo = none) :
    (∀ data, (gm965_find_registers p.bus data devid).1 = -ENODEV
      ∧ (gm965_find_registers p.bus data devid).2.1 = data)
    ∧ (gm965temp_probe p).1
        = (gm965temp_probe { p with bus := without_device p.bus devid }).1
    ∧ (gm965temp_probe p).2.1
        = (gm965temp_probe { p with bus := without_device p.bus devid }).2.1 := by
  have hfind : ∀ data d,
      (gm965_find_registers p.bus data d).1
        = (gm965_find_registers (without_device p.bus devid) data d).1
      ∧ (gm965_find_registers p.bus data d).2.1
        = (gm965_find_registers (without_device p.bus devid) data d).2.1 := by
    intro data d
    by_cases hd : d = devid
    · subst hd
      rw [find_registers_unreadable p.bus data d dev hdev hlo,
        find_registers_absent (without_device p.bus d) data d (by simp [without_device])]
      exact ⟨rfl, rfl⟩
    · have e : without_device p.bus devid d = p.bus d := by simp [without_device, hd]
      unfold gm965_find_registers
      rw [e]
      exact ⟨rfl, rfl⟩
  have hscan := probe_scan_congr p.bus (without_device p.bus devid) hfind chipset_ids
    ⟨0, 0, 0, 0⟩
  have hprobe : (gm965temp_probe p).1
        = (gm965temp_probe { p with bus := without_device p.bus devid }).1
      ∧ (gm965temp_probe p).2.1
        = (gm965temp_probe { p with bus := without_device p.bus devid }).2.1 := by
    have hinit : gm965temp_hwmon_init { p with bus := without_device p.bus devid }
        = gm965temp_hwmon_init p := rfl
    unfold gm965temp_probe
    rw [hinit]
    dsimp only
    generalize gm965temp_hwmon_init p = res
    generalize probe_scan p.bus chipset_ids ⟨0, 0, 0, 0⟩ = r1 at hscan ⊢
    generalize probe_scan (without_device p.bus devid) chipset_ids ⟨0, 0, 0, 0⟩ = r2
      at hscan ⊢
    obtain ⟨a1, d1, t1⟩ := r1
    obtain ⟨a2, d2, t2⟩ := r2
    obtain ⟨e1, e2⟩ := hscan
    simp only at e1 e2
    subst e1 e2
    by_cases h1 : p.kzalloc_ok = true
    · by_cases h2 : a1 = 0
      · by_cases h3 : p.request_mem_region_ok = true
        · by_cases h4 : p.ioremap_nocache_ok = true
          · by_cases h5 : res = 0
            · simp [h1, h2, h3, h4, h5]
            · simp [h1, h2, h3, h4, h5]
          · simp [h1, h2, h3, h4]
        · simp [h1, h2, h3]
      · simp [h1, h2]
    · simp [h1]
  refine ⟨fun data => ?_, hprobe.1, hprobe.2⟩
  rw [find_registers_unreadable p.bus data devid dev hdev hlo]
  exact ⟨rfl, rfl⟩

/-- The function `gm965_find_registers` on a device that is absent or has a
failing configuration read: `-ENODEV`, the data as they were, one
identifier tried. -/
theorem find_registers_unusable (bus : PciBus) (data : gm965temp_data) (devid : Nat)
    (h : usable bus devid = false) :
    (gm965_find_registers bus data devid).1 = -ENODEV
    ∧ (gm965_find_registers bus data devid).2.1 = data
    ∧ tried_ids (gm965_find_registers bus data devid).2.2 = [devid] := by
  cases hb : bus devid with
  | none => simp [gm965_find_registers, hb, tried_ids]
  | some dev =>
    obtain ⟨lo, hi⟩ := dev
    cases lo with
    | none => simp [gm965_find_registers, hb, tried_ids]
    | some lo =>
      cases hi with
      | none =>
        simp only [gm965_find_registers, hb]
        and_intros
        · trivial
        · trivial
        · split <;> simp [tried_ids]
      | some hi => simp [usable, hb] at h

/-- The function `gm965_find_registers` on a present device whose two
configuration reads succeed. -/
theorem find_registers_usable (bus : PciBus) (data : gm965temp_data) (devid : Nat)
    (h : usable bus devid = true) :
    (gm965_find_registers bus data devid).1 = 0
    ∧ (gm965_find_registers bus data devid).2.1.chipset_id = devid
    ∧ tried_ids (gm965_find_registers bus data devid).2.2 = [devid] := by
  unfold usable at h
  cases hb : bus devid with
  | none => simp [hb] at h
  | some dev =>
    rw [hb] at h
    simp only [Bool.and_eq_true] at h
    exact find_registers_present bus data devid dev hb h.1 h.2

/-- The scan over a zero-terminated array of non-zero identifiers, on any bus:
it passes over every identifier whose device is absent or unreadable and
stops at the first usable one. -/
theorem probe_scan_usable (bus : PciBus) :
    ∀ (l : List Nat) (a : Nat) (data : gm965temp_data), (∀ x ∈ l, x ≠ 0) →
      (∀ c, (a :: l).find? (usable bus) = some c →
        (probe_scan bus (a :: l ++ [0]) data).1 = 0
        ∧ (probe_scan bus (a :: l ++ [0]) data).2.1.chipset_id = c
        ∧ tried_ids (probe_scan bus (a :: l ++ [0]) data).2.2
            = (a :: l).takeWhile (fun d => !usable bus d) ++ [c])
      ∧ ((a :: l).find? (usable bus) = none →
        (probe_scan bus (a :: l ++ [0]) data).1 = -ENODEV
        ∧ (probe_scan bus (a :: l ++ [0]) data).2.1 = data
        ∧ tried_ids (probe_scan bus (a :: l ++ [0]) data).2.2 = a :: l) := by
  intro l
  induction l with
  | nil =>
    intro a data _
    cases hu : usable bus a with
    | false =>
      obtain ⟨h1, h2, h3⟩ := find_registers_unusable bus data a hu
      simp [probe_scan, hu, h1, h2, h3]
    | true =>
      obtain ⟨h1, h2, h3⟩ := find_registers_usable bus data a hu
      simp [probe_scan, hu, h1, h2, h3]
  | cons b l ih =>
    intro a data hnz
    have hb0 : b ≠ 0 := hnz b (by simp)
    have hl : ∀ x ∈ l, x ≠ 0 := fun x hx => hnz x (by simp [hx])
    cases hu : usable bus a with
    | false =>
      obtain ⟨h1, h2, h3⟩ := find_registers_unusable bus data a hu
      have hstep : probe_scan bus (a :: (b :: l) ++ [0]) data =
          ((probe_scan bus (b :: l ++ [0]) data).1, (probe_scan bus (b :: l ++ [0]) data).2.1,
            (gm965_find_registers bus data a).2.2
              ++ (probe_scan bus (b :: l ++ [0]) data).2.2) := by
        simp [probe_scan, h1, h2, hb0, ENODEV]
      obtain ⟨i1, i2⟩ := ih b data hl
      rw [hstep]
      constructor
      · intro c hfind
        rw [List.find?_cons_of_neg _ (by simp [hu])] at hfind
        obtain ⟨j1, j2, j3⟩ := i1 c hfind
        refine ⟨j1, j2, ?_⟩
        have e : (a :: b :: l).takeWhile (fun d => !usable bus d)
            = a :: (b :: l).takeWhile (fun d => !usable bus d) :=
          List.takeWhile_cons_of_pos (by simp [hu])
        rw [e, tried_ids_append, j3, h3]
        simp
      · intro hfind
        rw [List.find?_cons_of_neg _ (by simp [hu])] at hfind
        obtain ⟨j1, j2, j3⟩ := i2 hfind
        refine ⟨j1, j2, ?_⟩
        rw [tried_ids_append, j3, h3]
        simp
    | true =>
      obtain ⟨h1, h2, h3⟩ := find_registers_usable bus data a hu
      have hstep : probe_scan bus (a :: (b :: l) ++ [0]) data
          = gm965_find_registers bus data a := by
        simp [probe_scan, h1]
      rw [hstep]
      constructor
      · intro c hfind
        rw [List.find?_cons_of_pos _ hu] at hfind
        have e : a = c := by simpa using hfind
        subst e
        refine ⟨h1, h2, ?_⟩
        rw [h3, List.takeWhile_cons_of_neg (by simp [hu])]
        simp
      · intro hfind
        rw [List.find?_cons_of_pos _ hu] at hfind
        simp at hfind

/-- The scan of `gm965temp_probe` over `chipset_ids`, on any bus. -/
theorem probe_scan_chipset_ids (bus : PciBus) (data : gm965temp_data) :
    (∀ c, supported_ids.find? (usable bus) = some c →
      (probe_scan bus chipset_ids data).1 = 0
      ∧ (probe_scan bus chipset_ids data).2.1.chipset_id = c
      ∧ tried_ids (probe_scan bus chipset_ids data).2.2
          = supported_ids.takeWhile (fun d => !usable bus d) ++ [c])
    ∧ (supported_ids.find? (usable bus) = none →
      (probe_scan bus chipset_ids data).1 = -ENODEV
      ∧ (probe_scan bus chipset_ids data).2.1 = data
      ∧ tried_ids (probe_scan bus chipset_ids data).2.2 = supported_ids) := by
  have hspec := probe_scan_usable bus
    [0x2a10, 0x2a40, 0x29b0, 0x29c0, 0x29d0, 0x2e10, 0x2e20, 0x2e30, 0x2e40, 0x2e90]
    0x2a00 data (by decide)
  have hids : (0x2a00 :: [0x2a10, 0x2a40, 0x29b0, 0x29c0, 0x29d0, 0x2e10, 0x2e20, 0x2e30,
      0x2e40, 0x2e90] ++ [0] : List Nat) = chipset_ids := by decide
  have hsup : (0x2a00 :: [0x2a10, 0x2a40, 0x29b0, 0x29c0, 0x29d0, 0x2e10, 0x2e20, 0x2e30,
      0x2e40, 0x2e90] : List Nat) = supported_ids := by decide
  rw [hids, hsup] at hspec
  exact hspec

/-- The result of `gm965temp_probe` in terms of the result of its scan. -/
theorem probe_of_scan (p : Platform) (hk : p.kzalloc_ok = true) :
    ((probe_scan p.bus chipset_ids ⟨0, 0, 0, 0⟩).1 ≠ 0 →
      gm965temp_probe p = ((probe_scan p.bus chipset_ids ⟨0, 0, 0, 0⟩).1, none,
        (probe_scan p.bus chipset_ids ⟨0, 0, 0, 0⟩).2.2))
    ∧ ((probe_scan p.bus chipset_ids ⟨0, 0, 0, 0⟩).1 = 0 →
      p.request_mem_region_ok = true → p.ioremap_nocache_ok = true →
      gm965temp_hwmon_init p = 0 →
      gm965temp_probe p = (0, some (probe_scan p.bus chipset_ids ⟨0, 0, 0, 0⟩).2.1,
        (probe_scan p.bus chipset_ids ⟨0, 0, 0, 0⟩).2.2)) := by
  unfold gm965temp_probe
  dsimp only
  generalize gm965temp_hwmon_init p = res
  generalize probe_scan p.bus chipset_ids ⟨0, 0, 0, 0⟩ = r
  constructor
  · intro hne
    simp [hk, hne]
  · intro h0 h3 h4 h5
    simp [hk, h0, h3, h4, h5]

/-- C7 (amended): a configuration read failure skips the candidate. When a
candidate is present and the read of its window-base-low register fails:
`gm965_find_registers` returns `-ENODEV` and leaves the data as they were, as
for an absent device; the scan goes on with the next identifier of the array
(its code and data are those of the scan from the next identifier, and that
identifier is tried after the failed one); `gm965temp_probe` returns the code
and the instance it returns on the bus without that device; when the kernel
services succeed and some identifier of the list has a present and readable
device, `gm965temp_probe` returns 0 and installs the data of the first such
device, which is another one than the unreadable candidate, having tried
every identifier before it; and when no identifier of the list has a present
and readable device, it returns `-ENODEV` and installs nothing. -/
theorem config_read_failure_skips (p : Platform) (devid : Nat) (dev : pci_dev)
    (hdev : p.bus devid = some dev) (hlo : dev.mchbar_lo = none) :
    (∀ data, (gm965_find_registers p.bus data devid).1 = -ENODEV
      ∧ (gm965_find_registers p.bus data devid).2.1 = data)
    ∧ (∀ next rest data, next ≠ 0 →
        (probe_scan p.bus (devid :: next :: rest) data).1
          = (probe_scan p.bus (next :: rest) data).1
        ∧ (probe_scan p.bus (devid :: next :: rest) data).2.1
          = (probe_scan p.bus (next :: rest) data).2.1
        ∧ tried_ids (probe_scan p.bus (devid :: next :: rest) data).2.2
          = devid :: tried_ids (probe_scan p.bus (next :: rest) data).2.2)
    ∧ (gm965temp_probe p).1
        = (gm965temp_probe { p with bus := without_device p.bus devid }).1
    ∧ (gm965temp_probe p).2.1
        = (gm965temp_probe { p with bus := without_device p.bus devid }).2.1
    ∧ (p.kzalloc_ok = true → p.request_mem_region_ok = true →
        p.ioremap_nocache_ok = true → gm965temp_hwmon_init p = 0 →
        ∀ c, supported_ids.find? (usable p.bus) = some c →
          c ≠ devid
          ∧ (gm965temp_probe p).1 = 0
          ∧ (∃ d, (gm965temp_probe p).2.1 = some d ∧ d.chipset_id = c)
          ∧ tried_ids (gm965temp_probe p).2.2
              = supported_ids.takeWhile (fun d => !usable p.bus d) ++ [c])
    ∧ (p.kzalloc_ok = true → supported_ids.find? (usable p.bus) = none →
        (gm965temp_probe p).1 = -ENODEV
        ∧ (gm965temp_probe p).2.1 = none
        ∧ tried_ids (gm965temp_probe p).2.2 = supported_ids) := by
  have hun : usable p.bus devid = false := by simp [usable, hdev, hlo]
  have hf := fun data => find_registers_unreadable p.bus data devid dev hdev hlo
  have hw := probe_without_unreadable p devid dev hdev hlo
  refine ⟨fun data => ?_, ?_, hw.2.1, hw.2.2, ?_, ?_⟩
  · rw [hf data]
    exact ⟨rfl, rfl⟩
  · intro next rest data hnext
    have hstep : probe_scan p.bus (devid :: next :: rest) data =
        ((probe_scan p.bus (next :: rest) data).1, (probe_scan p.bus (next :: rest) data).2.1,
          [PciEvent.pci_get_device devid true,
            PciEvent.pci_read_config_dword devid MCHBAR_I965 false,
            PciEvent.pci_dev_put devid] ++ (probe_scan p.bus (next :: rest) data).2.2) := by
      simp [probe_scan, hf data, hnext, ENODEV]
    rw [hstep]
    refine ⟨rfl, rfl, ?_⟩
    rw [tried_ids_append]
    simp [tried_ids]
  · intro hk h3 h4 h5 c hc
    obtain ⟨s1, s2, s3⟩ := (probe_scan_chipset_ids p.bus ⟨0, 0, 0, 0⟩).1 c hc
    have hp := (probe_of_scan p hk).2 s1 h3 h4 h5
    have hcu : usable p.bus c = true := by
      have := List.find?_some hc
      simpa using this
    refine ⟨?_, by rw [hp], ⟨_, by rw [hp], s2⟩, by rw [hp]; exact s3⟩
    intro e
    rw [e, hun] at hcu
    exact Bool.false_ne_true hcu
  · intro hk hc
    obtain ⟨s1, _, s3⟩ := (probe_scan_chipset_ids p.bus ⟨0, 0, 0, 0⟩).2 hc
    have hne : (probe_scan p.bus chipset_ids ⟨0, 0, 0, 0⟩).1 ≠ 0 := by
      rw [s1]; decide
    have hp := (probe_of_scan p hk).1 hne
    rw [hp]
    exact ⟨s1, rfl, s3⟩

/-- C7 (amended), instances: the bus with the unreadable 82965GM and the
readable Q35, on which the scan goes on from 0x2a00 to 0x2a10 and the probe
succeeds with the Q35 after trying the four identifiers up to it; and the bus
with only the unreadable 82965GM, on which the probe fails with `-ENODEV`. -/
theorem config_read_failure_skips_witness :
    ((gm965temp_probe (platform_ok bus_unreadable_then_q35)).1 = 0
      ∧ (∃ d, (gm965temp_probe (platform_ok bus_unreadable_then_q35)).2.1 = some d
          ∧ d.chipset_id = 0x29b0)
      ∧ tried_ids (gm965temp_probe (platform_ok bus_unreadable_then_q35)).2.2
          = [0x2a00, 0x2a10, 0x2a40, 0x29b0])
    ∧ ((gm965temp_probe (platform_ok bus_only_unreadable)).1 = -ENODEV
      ∧ (gm965temp_probe (platform_ok bus_only_unreadable)).2.1 = none
      ∧ tried_ids (gm965temp_probe (platform_ok bus_only_unreadable)).2.2 = supported_ids)
    ∧ tried_ids (probe_scan (platform_ok bus_unreadable_then_q35).bus
          (0x2a00 :: 0x2a10 :: [0x2a40, 0x29b0, 0]) (mobile_data 0)).2.2
        = 0x2a00 :: tried_ids (probe_scan (platform_ok bus_unreadable_then_q35).bus
          (0x2a10 :: [0x2a40, 0x29b0, 0]) (mobile_data 0)).2.2 :=
  ⟨((config_read_failure_skips (platform_ok bus_unreadable_then_q35) 0x2a00 ⟨none, some 2⟩
      (by decide) rfl).2.2.2.2.1 rfl rfl rfl (by decide) 0x29b0 (by decide)).2,
   (config_read_failure_skips (platform_ok bus_only_unreadable) 0x2a00 ⟨none, some 2⟩
      (by decide) rfl).2.2.2.2.2 rfl (by decide),
   ((config_read_failure_skips (platform_ok bus_unreadable_then_q35) 0x2a00 ⟨none, some 2⟩
      (by decide) rfl).2.1 0x2a10 [0x2a40, 0x29b0, 0] (mobile_data 0) (by decide)).2.2⟩

/-! ## Further facts about every call -/

/-- The polling loop only appends events, none of them on the mutex. -/
theorem poll_extends (gm : Bool) (hw : Mmio) (tss1 tmov : Nat) :
    ∀ (i n v : Nat) (tr : List Event), ∃ ext,
      (poll gm hw tss1 tmov i n v tr).2 = tr ++ ext
      ∧ ext.all (fun e => !is_mutex_event e) = true := by
  intro i
  induction i with
  | zero => intro n v tr; exact ⟨[], by simp [poll], rfl⟩
  | succ i ih =>
    intro n v tr
    by_cases hv : v &&& tmov = 0
    · obtain ⟨ext, h1, h2⟩ := ih (n + 1) (read_reg gm hw tss1 n)
        (tr ++ [Event.mdelay 1, Event.udelay 300, read_reg_event gm hw tss1 n])
      refine ⟨[Event.mdelay 1, Event.udelay 300, read_reg_event gm hw tss1 n] ++ ext, ?_, ?_⟩
      · rw [poll, if_pos hv, h1, List.append_assoc]
      · rw [List.all_append, h2]
        cases gm <;> simp [read_reg_event, is_mutex_event]
    · exact ⟨[], by simp [poll, hv], rfl⟩

/-- On every call, whatever the chipset and the register values: the trace is
the store of 0 to the temperature, then the lock, then events none of which is
on the mutex, then the unlock. The lock is thus taken once and released once
on every path, and the first store to the temperature precedes the lock. -/
theorem update_trace_shape (hw : Mmio) (data : gm965temp_data) :
    ∃ mid, (gm965temp_update_device hw data).2
        = Event.store_temp 0 :: Event.mutex_lock :: mid ++ [Event.mutex_unlock]
      ∧ mid.all (fun e => !is_mutex_event e) = true := by
  by_cases hen : enable_bit_set hw data
  · obtain ⟨ext, h1, h2⟩ := poll_extends (IS_GM data) hw (if IS_GM data then TSS1 else G_TSS)
      (if IS_GM data then TMOV else G_TMOV) MAX_RETRIES 1
      (read_reg (IS_GM data) hw (if IS_GM data then TSS1 else G_TSS) 0)
      [Event.store_temp 0, Event.mutex_lock,
        read_reg_event (IS_GM data) hw (if IS_GM data then TSC1 else G_TSC1) 0,
        read_reg_event (IS_GM data) hw (if IS_GM data then TSS1 else G_TSS) 0]
    have hen2 : ¬ (read_reg (IS_GM data) hw (if IS_GM data then TSC1 else G_TSC1) 0
      &&& (if IS_GM data then TSE else G_TSE) = 0) := hen
    have hr1 : (!is_mutex_event
        (read_reg_event (IS_GM data) hw (if IS_GM data then TSC1 else G_TSC1) 0)) = true := by
      cases IS_GM data <;> simp [read_reg_event, is_mutex_event]
    have hr2 : (!is_mutex_event
        (read_reg_event (IS_GM data) hw (if IS_GM data then TSS1 else G_TSS) 0)) = true := by
      cases IS_GM data <;> simp [read_reg_event, is_mutex_event]
    have hm : ∀ t, (read_mobile hw t).2.all (fun e => !is_mutex_event e) = true := by
      intro t
      unfold read_mobile
      simp only []
      split <;> simp [is_mutex_event]
    have hd : (read_desktop hw).2.all (fun e => !is_mutex_event e) = true := by
      simp [read_desktop, is_mutex_event]
    unfold gm965temp_update_device
    simp only [List.cons_append, List.nil_append]
    rw [if_neg hen2]
    simp only [h1]
    generalize (poll (IS_GM data) hw (if IS_GM data then TSS1 else G_TSS)
      (if IS_GM data then TMOV else G_TMOV) MAX_RETRIES 1
      (read_reg (IS_GM data) hw (if IS_GM data then TSS1 else G_TSS) 0)
      [Event.store_temp 0, Event.mutex_lock,
        read_reg_event (IS_GM data) hw (if IS_GM data then TSC1 else G_TSC1) 0,
        read_reg_event (IS_GM data) hw (if IS_GM data then TSS1 else G_TSS) 0]).1 = pv
    by_cases hr : pv &&& (if IS_GM data then TMOV else G_TMOV) ≠ 0
    · rw [if_pos hr]
      by_cases hgm : IS_GM data = true
      · rw [if_pos hgm]
        refine ⟨read_reg_event (IS_GM data) hw (if IS_GM data then TSC1 else G_TSC1) 0
          :: read_reg_event (IS_GM data) hw (if IS_GM data then TSS1 else G_TSS) 0
          :: (ext ++ (read_mobile hw 0).2), by simp, ?_⟩
        simp only [List.all_cons, List.all_append, hr1, hr2, h2, hm, Bool.and_self]
      · rw [if_neg hgm]
        refine ⟨read_reg_event (IS_GM data) hw (if IS_GM data then TSC1 else G_TSC1) 0
          :: read_reg_event (IS_GM data) hw (if IS_GM data then TSS1 else G_TSS) 0
          :: (ext ++ (read_desktop hw).2), by simp, ?_⟩
        simp only [List.all_cons, List.all_append, hr1, hr2, h2, hd, Bool.and_self]
    · rw [if_neg hr]
      refine ⟨read_reg_event (IS_GM data) hw (if IS_GM data then TSC1 else G_TSC1) 0
          :: read_reg_event (IS_GM data) hw (if IS_GM data then TSS1 else G_TSS) 0
          :: ext, by simp, ?_⟩
      simp only [List.all_cons, hr1, hr2, h2, Bool.and_self]
  · rw [update_disabled hw data hen]
    refine ⟨[read_reg_event (IS_GM data) hw (if IS_GM data then TSC1 else G_TSC1) 0,
        Event.iowrite16 (if IS_GM data then TSC1 else G_TSC1)
          ((read_reg (IS_GM data) hw (if IS_GM data then TSC1 else G_TSC1) 0
            ||| (if IS_GM data then TSE else G_TSE)) % 65536),
        read_reg_event (IS_GM data) hw (if IS_GM data then TSC1 else G_TSC1) 1], rfl, ?_⟩
    cases IS_GM data <;> simp [read_reg_event, is_mutex_event]

/-- The value of the mobile decode: the two raw bytes are summed and the sum
is taken as a signed 8-bit number `r`; nothing is stored when `r = 0`, and
otherwise the formula at `r` is stored (the test against `0xFF` never
fails, `r` being at most 127). -/
theorem read_mobile_value (hw : Mmio) (t : Nat) :
    (read_mobile hw t).1 =
      if toChar ((igp_read_byte hw RTR1 0 + igp_read_byte hw TOF1 0 : Nat) : Int) = 0 then t
      else toUInt ((mobile_poly
        (toChar ((igp_read_byte hw RTR1 0 + igp_read_byte hw TOF1 0 : Nat) : Int))).tdiv 10) := by
  have hs : toChar (toChar (igp_read_byte hw RTR1 0 : Nat) + (igp_read_byte hw TOF1 0 : Nat))
      = toChar ((igp_read_byte hw RTR1 0 + igp_read_byte hw TOF1 0 : Nat) : Int) := by
    unfold toChar
    omega
  have hne : toChar ((igp_read_byte hw RTR1 0 + igp_read_byte hw TOF1 0 : Nat) : Int) ≠ 0xFF := by
    unfold toChar
    omega
  unfold read_mobile
  simp only [hs]
  by_cases hz : toChar ((igp_read_byte hw RTR1 0 + igp_read_byte hw TOF1 0 : Nat) : Int) = 0
  · rw [if_neg (fun h => h.2 hz), if_pos hz]
  · rw [if_pos ⟨hne, hz⟩, if_neg hz]

/-- On a mobile chipset with the enable bit set and the ready bit within the
37 reads, when the 8-bit sum `S` of the two raw bytes lies in [1,127], the
call stores `(16*S*S - 11071*S + 1610500) / 10`. -/
theorem mobile_decode_low_sum (hw : Mmio) (data : gm965temp_data)
    (hgm : IS_GM data = true) (hen : enable_bit_set hw data)
    (k : Nat) (hk : k ≤ 36) (hfirst : first_ready_at hw data k)
    (h1 : 1 ≤ (igp_read_byte hw RTR1 0 + igp_read_byte hw TOF1 0) % 256)
    (h2 : (igp_read_byte hw RTR1 0 + igp_read_byte hw TOF1 0) % 256 ≤ 127) :
    (gm965temp_update_device hw data).1.temp =
      toUInt ((mobile_poly
        (((igp_read_byte hw RTR1 0 + igp_read_byte hw TOF1 0) % 256 : Nat) : Int)).tdiv 10) := by
  have hu := update_enabled hw data k hen hk hfirst.1 (Or.inr hfirst.2)
  rw [if_pos hfirst.2, if_pos hgm] at hu
  have hc : toChar ((igp_read_byte hw RTR1 0 + igp_read_byte hw TOF1 0 : Nat) : Int)
      = (((igp_read_byte hw RTR1 0 + igp_read_byte hw TOF1 0) % 256 : Nat) : Int) := by
    unfold toChar
    omega
  have hz : toChar ((igp_read_byte hw RTR1 0 + igp_read_byte hw TOF1 0 : Nat) : Int) ≠ 0 := by
    rw [hc]
    omega
  rw [hu]
  show (read_mobile hw 0).1 = _
  rw [read_mobile_value, if_neg hz, hc]

end Gm965temp
